import Mathlib

/-!
Verification of the baip-ai-summary-agent repository.

Shallow embedding of the pure logic of the scraping scripts:
string utilities, the strptime-based date parsing, the keyword-bucket
manual summary, the date-range computation, the prompt construction,
the Slack payload, the mirror-instance selection and the main pipelines.
Python strings are modelled as Lean String, datetimes as a record of
calendar fields plus a timezone-awareness flag, and external effects
(HTTP, the language model, environment variables) as explicit oracle
parameters.
-/

namespace Baip

/-! ## String utilities, modelling Python string primitives -/

/-- Models the Python whitespace class used by str.strip and regex \s
for the ASCII range. -/
def isPySpace (c : Char) : Bool :=
  c == ' ' || c == '\t' || c == '\n' || c == '\r' || c == '\x0b' || c == '\x0c'

/-- Models Python str.strip with no argument: drop leading and trailing
whitespace. -/
def pyStrip (s : String) : String :=
  ⟨((s.data.dropWhile isPySpace).reverse.dropWhile isPySpace).reverse⟩

/-- Models Python str.lower for the ASCII letters that occur in the
fixed keyword tables of the scripts. -/
def pyLower (s : String) : String :=
  ⟨s.data.map Char.toLower⟩

/-- Decides whether the first list is an initial segment of the second,
used to model substring search. -/
def charsLeads : List Char → List Char → Bool
  | [], _ => true
  | _ :: _, [] => false
  | a :: as, b :: bs => a == b && charsLeads as bs

/-- Decides whether the first list occurs as a contiguous sublist of the
second, modelling the Python expression needle in haystack. -/
def charsContains : List Char → List Char → Bool
  | n, [] => n.isEmpty
  | n, h :: hs => charsLeads n (h :: hs) || charsContains n hs

/-- Models the Python membership test needle in haystack on strings. -/
def occursIn (needle haystack : String) : Bool :=
  charsContains needle.data haystack.data

/-! ## Datetime model

A Python datetime value is modelled by its calendar fields together
with a flag recording whether it carries tzinfo; every aware datetime
produced by these scripts is in UTC, so the flag is enough. -/

structure PyDateTime where
  year : Nat
  month : Nat
  day : Nat
  hour : Nat
  minute : Nat
  second : Nat
  tzaware : Bool
deriving DecidableEq

/-- Models comparison of two UTC datetimes, as used by the in-range
checks start_date <= tweet_date <= end_date. -/
def dtLe (a b : PyDateTime) : Bool :=
  if a.year ≠ b.year then a.year < b.year
  else if a.month ≠ b.month then a.month < b.month
  else if a.day ≠ b.day then a.day < b.day
  else if a.hour ≠ b.hour then a.hour < b.hour
  else if a.minute ≠ b.minute then a.minute < b.minute
  else a.second ≤ b.second

/-- Strict comparison of two UTC datetimes. -/
def dtLt (a b : PyDateTime) : Bool :=
  dtLe a b && a ≠ b

/-- Gregorian leap-year rule, as implemented by the Python datetime
module. -/
def isLeap (y : Nat) : Bool :=
  (y % 4 == 0 && y % 100 != 0) || y % 400 == 0

/-- Number of days of a month in the Gregorian calendar. -/
def daysInMonth (y m : Nat) : Nat :=
  if m = 2 then (if isLeap y then 29 else 28)
  else if m = 4 ∨ m = 6 ∨ m = 9 ∨ m = 11 then 30
  else 31

/-! ## strptime model

Models the subset of Python datetime.strptime exercised by the date
formats of the repository: the directives %b %d %m %Y %I %H %M %S %p,
literal characters matched case-insensitively, and a whitespace run for
a space in the format, per the IGNORECASE regexes of the _strptime
module.  Parsing is anchored at both ends and a matched date is
validated against the month length before a naive datetime is built
from the collected fields with the Python defaults (year 1900,
month 1, day 1, midnight). -/

structure ParseFields where
  fmonth : Option Nat
  fday : Option Nat
  fyear : Option Nat
  fhour24 : Option Nat
  fhour12 : Option Nat
  fminute : Option Nat
  fsecond : Option Nat
  fpm : Option Bool
deriving DecidableEq

def emptyFields : ParseFields :=
  ⟨none, none, none, none, none, none, none, none⟩

/-- Numeric value of an ASCII digit. -/
def digitVal (c : Char) : Option Nat :=
  if c.isDigit then some (c.toNat - 48) else none

/-- Models a strptime two-or-one digit numeric directive: a two-digit
match is taken when its value passes valid2, otherwise a single digit
passing valid1 is taken, mirroring the alternation order of the
_strptime regexes. -/
def readNum (valid2 valid1 : Nat → Bool) : List Char → Option (Nat × List Char)
  | a :: b :: rest =>
    match digitVal a, digitVal b with
    | some x, some y =>
      if valid2 (10 * x + y) then some (10 * x + y, rest)
      else if valid1 x then some (x, b :: rest) else none
    | some x, none => if valid1 x then some (x, b :: rest) else none
    | none, _ => none
  | [a] =>
    match digitVal a with
    | some x => if valid1 x then some (x, []) else none
    | none => none
  | [] => none

/-- Models the %Y directive: exactly four digits. -/
def readYear : List Char → Option (Nat × List Char)
  | a :: b :: c :: d :: rest =>
    match digitVal a, digitVal b, digitVal c, digitVal d with
    | some w, some x, some y, some z => some (1000 * w + 100 * x + 10 * y + z, rest)
    | _, _, _, _ => none
  | _ => none

/-- Month abbreviations of the C locale, lowercased, in month order. -/
def monthAbbrs : List String :=
  ["jan", "feb", "mar", "apr", "may", "jun",
   "jul", "aug", "sep", "oct", "nov", "dec"]

/-- Helper for the %b directive: try each abbreviation as a
case-insensitive lead of the input. -/
def matchMonthFrom (k : Nat) : List String → List Char → Option (Nat × List Char)
  | [], _ => none
  | ab :: rest, input =>
    if charsLeads ab.data (input.map Char.toLower) then
      some (k, input.drop ab.length)
    else matchMonthFrom (k + 1) rest input

/-- Models the %b directive. -/
def matchMonth (input : List Char) : Option (Nat × List Char) :=
  matchMonthFrom 1 monthAbbrs input

/-- Models the %p directive, matching am or pm case-insensitively. -/
def matchAmPm (input : List Char) : Option (Bool × List Char) :=
  match input with
  | a :: b :: rest =>
    if a.toLower == 'a' && b.toLower == 'm' then some (false, rest)
    else if a.toLower == 'p' && b.toLower == 'm' then some (true, rest)
    else none
  | _ => none

/-- Core of the strptime model: walk the format, consuming the input.
Returns the collected fields when both the format and the input are
exhausted together. -/
def runFormat : List Char → List Char → ParseFields → Option ParseFields
  | [], input, st => if input.isEmpty then some st else none
  | '%' :: 'b' :: fs, input, st =>
    match matchMonth input with
    | some (m, rest) => runFormat fs rest { st with fmonth := some m }
    | none => none
  | '%' :: 'd' :: fs, input, st =>
    match readNum (fun v => 1 ≤ v && v ≤ 31) (fun v => 1 ≤ v && v ≤ 9) input with
    | some (d, rest) => runFormat fs rest { st with fday := some d }
    | none => none
  | '%' :: 'm' :: fs, input, st =>
    match readNum (fun v => 1 ≤ v && v ≤ 12) (fun v => 1 ≤ v && v ≤ 9) input with
    | some (m, rest) => runFormat fs rest { st with fmonth := some m }
    | none => none
  | '%' :: 'Y' :: fs, input, st =>
    match readYear input with
    | some (y, rest) => runFormat fs rest { st with fyear := some y }
    | none => none
  | '%' :: 'I' :: fs, input, st =>
    match readNum (fun v => 1 ≤ v && v ≤ 12) (fun v => 1 ≤ v && v ≤ 9) input with
    | some (h, rest) => runFormat fs rest { st with fhour12 := some h }
    | none => none
  | '%' :: 'H' :: fs, input, st =>
    match readNum (fun v => v ≤ 23) (fun v => v ≤ 9) input with
    | some (h, rest) => runFormat fs rest { st with fhour24 := some h }
    | none => none
  | '%' :: 'M' :: fs, input, st =>
    match readNum (fun v => v ≤ 59) (fun v => v ≤ 9) input with
    | some (m, rest) => runFormat fs rest { st with fminute := some m }
    | none => none
  | '%' :: 'S' :: fs, input, st =>
    match readNum (fun v => v ≤ 61) (fun v => v ≤ 9) input with
    | some (x, rest) => runFormat fs rest { st with fsecond := some x }
    | none => none
  | '%' :: 'p' :: fs, input, st =>
    match matchAmPm input with
    | some (p, rest) => runFormat fs rest { st with fpm := some p }
    | none => none
  | '%' :: _ :: _, _, _ => none
  | ['%'], _, _ => none
  | c :: fs, input, st =>
    if isPySpace c then
      match input with
      | [] => none
      | i :: is =>
        if isPySpace i then runFormat fs (is.dropWhile isPySpace) st else none
    else
      match input with
      | [] => none
      | i :: is => if i.toLower == c.toLower then runFormat fs is st else none

/-- Assembles a naive datetime from collected fields, applying the
Python defaults, the am and pm adjustment of an %I hour, and the
day-of-month validation done by the datetime constructor. -/
def buildNaive (st : ParseFields) : Option PyDateTime :=
  let y := st.fyear.getD 1900
  let mo := st.fmonth.getD 1
  let d := st.fday.getD 1
  let h :=
    match st.fhour24 with
    | some h => h
    | none =>
      match st.fhour12 with
      | some h =>
        if st.fpm = some true then (if h = 12 then 12 else h + 12)
        else (if h = 12 then 0 else h)
      | none => 0
  let mi := st.fminute.getD 0
  let sec := st.fsecond.getD 0
  if d ≤ daysInMonth y mo then some ⟨y, mo, d, h, mi, sec, false⟩ else none

/-- Models datetime.strptime(input, fmt) for the formats of this
repository: some naive datetime on success, none on ValueError. -/
def pyStrptime (input fmt : String) : Option PyDateTime :=
  (runFormat fmt.data input.data emptyFields).bind buildNaive

/-- Models pytz.UTC.localize on a naive datetime. -/
def pyLocalizeUTC (dt : PyDateTime) : PyDateTime :=
  { dt with tzaware := true }

/-! ## Tweet date parsing

Embeds TweetScraper._parse_tweet_date of scripts/tweet_scraper.py
(eight formats, empty-string guard, strip, localize when naive),
TweetScraper._parse_tweet_date of tweet_scraper.py (two formats,
nested try), and the inline two-format parse of
TwitterScraper.get_user_tweets in ai_summary_agent.py.  The format
strings below reproduce the source bytes exactly, including the
mis-encoded separator characters each file carries. -/

/-- The format list of scripts/tweet_scraper.py lines 181 to 190. -/
def formatsScripts : List String :=
  ["%b %d, %Y ¬∑ %I:%M %p UTC",
   "%b %d, %Y ¬∑ %H:%M UTC",
   "%I:%M %p ¬∑ %b %d, %Y",
   "%H:%M ¬∑ %b %d, %Y",
   "%b %d, %Y at %I:%M %p UTC",
   "%b %d, %Y at %H:%M UTC",
   "%Y-%m-%d %H:%M:%S UTC",
   "%b %d, %Y"]

/-- Models the tzinfo check of scripts/tweet_scraper.py lines 196
to 197: localize to UTC only when the parsed datetime is naive. -/
def localizeIfNaive (dt : PyDateTime) : PyDateTime :=
  if dt.tzaware then dt else pyLocalizeUTC dt

/-- The format loop of _parse_tweet_date in scripts/tweet_scraper.py:
try each format on the stripped string, returning the first success
localized, continuing on ValueError. -/
def tryFormatsScripts : List String → String → Option PyDateTime
  | [], _ => none
  | f :: rest, s =>
    match pyStrptime (pyStrip s) f with
    | some dt => some (localizeIfNaive dt)
    | none => tryFormatsScripts rest s

/-- Embeds TweetScraper._parse_tweet_date of scripts/tweet_scraper.py
lines 174 to 207. -/
def parseTweetDateScripts (dateStr : String) : Option PyDateTime :=
  if dateStr = "" then none
  else tryFormatsScripts formatsScripts dateStr

/-- The two formats of tweet_scraper.py lines 126 and 130. -/
def formatSrcOne : String := "%b %d, %Y · %I:%M %p UTC"

def formatSrcTwo : String := "%b %d, %Y · %H:%M UTC"

/-- Embeds TweetScraper._parse_tweet_date of tweet_scraper.py lines 123
to 134: nested try blocks over the two formats, localizing each
success, returning None when both raise. -/
def parseTweetDateSrc (dateStr : String) : Option PyDateTime :=
  match pyStrptime dateStr formatSrcOne with
  | some dt => some (pyLocalizeUTC dt)
  | none =>
    match pyStrptime dateStr formatSrcTwo with
    | some dt => some (pyLocalizeUTC dt)
    | none => none

/-- The two formats of ai_summary_agent.py lines 246 and 250. -/
def formatAgentOne : String := "%b %d, %Y Â· %I:%M %p UTC"

def formatAgentTwo : String := "%b %d, %Y Â· %H:%M UTC"

/-- Embeds the inline date parsing of TwitterScraper.get_user_tweets in
ai_summary_agent.py lines 244 to 254: nested try blocks over the two
formats; on double failure the surrounding loop continues, modelled by
none. -/
def parseDateAgentInline (dateStr : String) : Option PyDateTime :=
  match pyStrptime dateStr formatAgentOne with
  | some dt => some (pyLocalizeUTC dt)
  | none =>
    match pyStrptime dateStr formatAgentTwo with
    | some dt => some (pyLocalizeUTC dt)
    | none => none

/-! ## Keyword-bucket manual summary

Embeds generate_manual_summary of scripts/tweet_scraper.py lines 328
to 367 and of scripts/twitter_scraper_scrapfly.py lines 559 to 600.
The Python dict categorized is modelled as an association list from
category to bucket, in key insertion order. -/

/-- The topics table of scripts/tweet_scraper.py lines 333 to 339, in
dict insertion order. -/
def topicsScripts : List (String × List String) :=
  [("model", ["gpt", "claude", "gemini", "llama", "mistral", "model"]),
   ("api", ["api", "endpoint", "integration", "developer"]),
   ("research", ["research", "paper", "study", "breakthrough"]),
   ("product", ["launch", "release", "announce", "new", "update"]),
   ("partnership", ["partner", "collaboration", "team", "join"])]

/-- The topics table of scripts/twitter_scraper_scrapfly.py lines 565
to 571, in dict insertion order. -/
def topicsScrapfly : List (String × List String) :=
  [("product", ["launch", "release", "announce", "new", "update", "feature"]),
   ("partnership", ["partner", "collaboration", "team", "join", "acquisition"]),
   ("research", ["research", "paper", "study", "breakthrough", "model"]),
   ("business", ["funding", "investment", "growth", "revenue", "enterprise"]),
   ("technical", ["api", "endpoint", "integration", "developer", "platform"])]

/-- Models the inner any(keyword in tweet_lower ...) test. -/
def anyKeyword (keywords : List String) (tweetLower : String) : Bool :=
  keywords.any (fun k => occursIn k tweetLower)

/-- Models the inner category loop with its break: the first category
in table order with a matching keyword, if any. -/
def firstMatchingCategory : List (String × List String) → String → Option String
  | [], _ => none
  | (cat, kws) :: rest, tweetLower =>
    if anyKeyword kws tweetLower then some cat
    else firstMatchingCategory rest tweetLower

/-- Models the dict update pair: create the key with an empty list when
absent, then append the tweet to its bucket. -/
def addToBucket : List (String × List String) → String → String → List (String × List String)
  | [], cat, tw => [(cat, [tw])]
  | (k, ts) :: rest, cat, tw =>
    if k = cat then (k, ts ++ [tw]) :: rest
    else (k, ts) :: addToBucket rest cat tw

/-- One iteration of the outer tweet loop of generate_manual_summary. -/
def categorizeStep (topics : List (String × List String))
    (acc : List (String × List String)) (tw : String) : List (String × List String) :=
  match firstMatchingCategory topics (pyLower tw) with
  | some cat => addToBucket acc cat tw
  | none => acc

/-- The categorized dict built by generate_manual_summary of
scripts/tweet_scraper.py, which iterates only over tweets[:20]. -/
def categorizedScripts (tweets : List String) : List (String × List String) :=
  (tweets.take 20).foldl (categorizeStep topicsScripts) []

/-- The categorized dict built by generate_manual_summary of
scripts/twitter_scraper_scrapfly.py, which iterates over all tweets. -/
def categorizedScrapfly (tweets : List String) : List (String × List String) :=
  tweets.foldl (categorizeStep topicsScrapfly) []

/-- The bucket of a category in a categorized dict: its list of tweets,
empty when the key is absent. -/
def bucketOf (buckets : List (String × List String)) (cat : String) : List String :=
  match buckets with
  | [] => []
  | (k, ts) :: rest => if k = cat then ts else bucketOf rest cat

/-- Models str.title on the single lowercase words used as category
names: capitalize the first character. -/
def capFirst (s : String) : String :=
  match s.data with
  | [] => ""
  | c :: cs => ⟨c.toUpper :: cs⟩

/-- Left fold string concatenation helper for summary assembly. -/
def concatMapStr (f : α → String) (l : List α) : String :=
  l.foldl (fun acc x => acc ++ f x) ""

/-- Embeds generate_manual_summary of scripts/tweet_scraper.py lines
328 to 367, assembling the fallback summary text from the categorized
buckets. -/
def generateManualSummaryScripts (tweets : List String) : String :=
  let header := "**Daily AI Summary - Manual Overview**\n\n"
  let categorized := categorizedScripts tweets
  let body :=
    if categorized ≠ [] then
      concatMapStr (fun (p : String × List String) =>
        if p.2 ≠ [] then
          "‚Ä¢ **" ++ capFirst p.1 ++ " Updates**: " ++ toString p.2.length ++ " related posts\n"
        else "") categorized
      ++ "\n**Sample Posts:**\n"
      ++ concatMapStr (fun t => "‚Ä¢ " ++ t ++ "\n") (tweets.take 5)
    else
      "‚Ä¢ Multiple posts from AI companies tracked\n"
      ++ "‚Ä¢ Content includes company updates and announcements\n\n"
      ++ "**Recent Posts:**\n"
      ++ concatMapStr (fun t => "‚Ä¢ " ++ t ++ "\n") (tweets.take 8)
  header ++ body
    ++ "\n*Note: Manual summary generated due to API limitations. AI-powered analysis will resume when quota is restored.*"

/-! ## Date range

Embeds get_date_range of ai_summary_agent.py lines 323 to 337 and the
identical TweetScraper._get_date_range of scripts/tweet_scraper.py
lines 163 to 172: build yesterday at 00:00:00 and yesterday at
23:59:59 in UTC by subtracting timedelta(days=1), which on a UTC
datetime moves the calendar date back one day and keeps the time. -/

/-- Calendar predecessor of a date, the effect of subtracting
timedelta(days=1) on the date part of a UTC datetime. -/
def prevDayTriple (y m d : Nat) : Nat × Nat × Nat :=
  if 2 ≤ d then (y, m, d - 1)
  else if 2 ≤ m then (y, m - 1, daysInMonth y (m - 1))
  else (y - 1, 12, 31)

/-- Embeds get_date_range, taking the current UTC datetime as input and
returning the pair (start, end). -/
def getDateRange (now : PyDateTime) : PyDateTime × PyDateTime :=
  let p := prevDayTriple now.year now.month now.day
  (⟨p.1, p.2.1, p.2.2, 0, 0, 0, true⟩, ⟨p.1, p.2.1, p.2.2, 23, 59, 59, true⟩)

/-- Modelled from the spec words for the claim about the date window: a
date falls on the previous day of another exactly when its calendar
successor is that other date. -/
def nextDayTriple (y m d : Nat) : Nat × Nat × Nat :=
  if d < daysInMonth y m then (y, m, d + 1)
  else if m < 12 then (y, m + 1, 1)
  else (y + 1, 1, 1)

/-- A well-formed Gregorian date with a positive year. -/
def ValidDate (y m d : Nat) : Prop :=
  1 ≤ y ∧ 1 ≤ m ∧ m ≤ 12 ∧ 1 ≤ d ∧ d ≤ daysInMonth y m

instance (y m d : Nat) : Decidable (ValidDate y m d) := by
  unfold ValidDate; infer_instance

/-! ## Summary prompt construction

Embeds the prompt assembly of generate_summary in ai_summary_agent.py
lines 339 to 357 (first 20 tweets) and in scripts/tweet_scraper.py
lines 369 to 390 (first 25 tweets): the selected tweets are joined
with a blank line and substituted into the fixed template. -/

/-- Models str.join with a separator. -/
def joinSep (sep : String) : List String → String
  | [] => ""
  | [t] => t
  | t :: ts => t ++ sep ++ joinSep sep ts

/-- The template text before the substituted tweets in
ai_summary_agent.py. -/
def promptHeadAgent : String :=
  "Analyze these tweets from AI companies and create a concise daily summary:\n    \nKey points to extract:\n- New product announcements\n- Technical breakthroughs\n- Important partnerships\n- Notable research findings\n- Significant company updates\n\nTweets:\n"

/-- The template text after the substituted tweets in
ai_summary_agent.py. -/
def promptTailAgent : String :=
  "\n\nSummary (in bullet points):"

/-- The prompt sent by generate_summary of ai_summary_agent.py: the
template applied to the first 20 tweets joined by blank lines. -/
def buildPromptAgent (tweets : List String) : String :=
  promptHeadAgent ++ joinSep "\n\n" (tweets.take 20) ++ promptTailAgent

/-- The template text before the substituted tweets in
scripts/tweet_scraper.py. -/
def promptHeadScripts : String :=
  "Analyze these tweets from AI companies and create a concise daily summary:\n        \nKey points to extract:\n- New product announcements\n- Technical breakthroughs\n- Important partnerships\n- Notable research findings\n- Significant company updates\n- Industry trends and insights\n\nPlease format the summary in clear bullet points with the most important information first.\n\nTweets:\n"

/-- The template text after the substituted tweets in
scripts/tweet_scraper.py. -/
def promptTailScripts : String :=
  "\n\nSummary:"

/-- The prompt sent by TweetScraper.generate_summary of
scripts/tweet_scraper.py: the template applied to the first 25 tweets
joined by blank lines. -/
def buildPromptScripts (tweets : List String) : String :=
  promptHeadScripts ++ joinSep "\n\n" (tweets.take 25) ++ promptTailScripts

/-! ## Slack payload and send_to_slack

Embeds the webhook payload construction and the send_to_slack
functions.  A JSON value is modelled by a small inductive and the
payload object by its field list; the webhook URL environment variable
by an Option String, the HTTP post by its outcome (exception flag and
status code).  The result records both the returned boolean and
whether an HTTP request was issued. -/

inductive JVal where
  | jstr : String → JVal
  | jbool : Bool → JVal
deriving DecidableEq

/-- The dated title prepended by send_to_slack of ai_summary_agent.py
line 379, with the strftime result as a parameter. -/
def slackTitleAgent (today : String) : String :=
  "*ðŸ“° Daily AI Summary - " ++ today ++ "*\n\n"

/-- The payload object of send_to_slack in ai_summary_agent.py lines
378 to 381. -/
def slackPayloadAgent (today message : String) : List (String × JVal) :=
  [("text", JVal.jstr (slackTitleAgent today ++ message)),
   ("mrkdwn", JVal.jbool true)]

/-- The dated title prepended by send_to_slack of
scripts/twitter_scraper_scrapfly.py line 613, with the day name and
the strftime result as parameters. -/
def slackTitleScrapfly (dayName today : String) : String :=
  "*📰 AI Business Week Summary - " ++ dayName ++ ", " ++ today ++ "*\n\n"

/-- The payload object of send_to_slack in
scripts/twitter_scraper_scrapfly.py lines 612 to 615. -/
def slackPayloadScrapfly (dayName today message : String) : List (String × JVal) :=
  [("text", JVal.jstr (slackTitleScrapfly dayName today ++ message)),
   ("mrkdwn", JVal.jbool true)]

/-- The dated title prepended by TweetScraper.send_to_slack of
scripts/tweet_scraper.py line 432. -/
def slackTitleScripts (today : String) : String :=
  "*üì∞ Daily AI Summary - " ++ today ++ "*\n\n"

/-- Outcome of the requests.post call: raised, or returned a status. -/
structure PostOutcome where
  raised : Bool
  status : Nat
deriving DecidableEq

/-- Embeds TweetScraper.send_to_slack of scripts/tweet_scraper.py lines
424 to 449.  The first component is the returned boolean, the second
records whether the HTTP request was issued. -/
def sendToSlackScripts (webhookUrl : Option String) (post : PostOutcome)
    (message : String) : Bool × Bool :=
  match webhookUrl with
  | none => (false, false)
  | some u =>
    if u = "" then (false, false)
    else if post.raised then (false, true)
    else if post.status = 200 then (true, true)
    else (false, true)

/-- Embeds send_to_slack of ai_summary_agent.py lines 371 to 396, which
has the same guard and control flow. -/
def sendToSlackAgent (webhookUrl : Option String) (post : PostOutcome)
    (message : String) : Bool × Bool :=
  match webhookUrl with
  | none => (false, false)
  | some u =>
    if u = "" then (false, false)
    else if post.raised then (false, true)
    else if post.status = 200 then (true, true)
    else (false, true)

/-! ## Summary generation and the main pipelines

Embeds generate_summary, generate_demo_summary and the two main
functions of scripts/tweet_scraper.py and ai_summary_agent.py.  The
language model call is an oracle from the prompt to an optional
completion text, none modelling a raised exception; the scraper is an
oracle from the account name to its collected tweets. -/

/-- The canned demo summary of TweetScraper.generate_demo_summary,
scripts/tweet_scraper.py lines 314 to 326. -/
def demoSummaryScripts : String :=
  "**Demo Summary - AI Industry Updates**\n\n‚Ä¢ **Model Improvements**: Multiple companies releasing enhanced versions of their flagship models with better performance\n‚Ä¢ **API Updates**: New features and improvements being rolled out to developer platforms  \n‚Ä¢ **Research Advances**: Continued breakthroughs in multimodal AI and reasoning capabilities\n‚Ä¢ **Enterprise Adoption**: Growing use of AI models in business applications\n‚Ä¢ **Open Source**: Continued push for democratizing AI through open source initiatives\n\n*Note: This is a demo summary as tweet scraping services are currently unavailable. The monitoring system will resume normal operation when services are restored.*"

/-- Embeds TweetScraper.generate_summary of scripts/tweet_scraper.py
lines 369 to 422: demo summary on an empty list, the stripped model
response on success, and the manual summary on any exception, both
quota errors and others. -/
def generateSummaryScripts (llm : String → Option String) (tweets : List String) : String :=
  if tweets = [] then demoSummaryScripts
  else
    match llm (buildPromptScripts tweets) with
    | some content => pyStrip content
    | none => generateManualSummaryScripts tweets

/-- Embeds generate_summary of ai_summary_agent.py lines 339 to 369: a
fixed sentence on an empty list, the stripped model response on
success, and a placeholder string on exception. -/
def generateSummaryAgent (llm : String → Option String) (tweets : List String) : String :=
  if tweets = [] then "No tweets found from monitored accounts in the last 24 hours."
  else
    match llm (buildPromptAgent tweets) with
    | some content => pyStrip content
    | none => "Failed to generate summary"

/-- The account list shared by both scripts. -/
def xAccounts : List String :=
  ["OpenAI", "xai", "AnthropicAI", "GoogleDeepMind", "MistralAI",
   "AIatMeta", "Cohere", "perplexity_ai", "scale_ai", "runwayml", "dair_ai"]

/-- External environment of one pipeline run: whether the required
environment variables are set, the mirror instance found by the
selector, the per-account scrape results, and the language model
oracle. -/
structure RunEnv where
  envOk : Bool
  inst : Option String
  scraped : String → List String
  llm : String → Option String

/-- Tweets collected by the account loop of a main function. -/
def collectTweets (scraped : String → List String) : List String :=
  xAccounts.foldl (fun acc a => acc ++ scraped a) []

/-- Accounts that produced at least one tweet, as counted by the
scripts main loop. -/
def successfulAccounts (scraped : String → List String) : Nat :=
  (xAccounts.filter (fun a => scraped a ≠ [])).length

/-- Embeds main of scripts/tweet_scraper.py lines 450 to 518, returning
the message handed to send_to_slack, or none when main returns without
calling it.  Missing environment variables make main return early; in
every other case a message is built, from the generated summary when
scraping found tweets and from the demo summary otherwise, and posted. -/
def mainScriptsMessage (e : RunEnv) : Option String :=
  if e.envOk = false then none
  else
    let allTweets := if e.inst.isSome then collectTweets e.scraped else []
    let okCount := if e.inst.isSome then successfulAccounts e.scraped else 0
    if allTweets ≠ [] then
      some (generateSummaryScripts e.llm allTweets
        ++ "\n\n_Processed " ++ toString okCount ++ "/" ++ toString xAccounts.length
        ++ " accounts ‚Ä¢ " ++ toString allTweets.length ++ " total tweets_")
    else
      some (demoSummaryScripts
        ++ "\n\n_Demo mode: " ++ toString okCount ++ "/" ++ toString xAccounts.length
        ++ " accounts processed ‚Ä¢ Scraping services unavailable_")

/-- Embeds main of ai_summary_agent.py lines 398 to 443.  The error
constructor models an exception propagating out of main, as the final
raise does after TwitterScraper raises when no instance works; ok none
models main returning without posting anything; ok some is the message
handed to send_to_slack. -/
def mainAgentResult (e : RunEnv) : Except String (Option String) :=
  if e.envOk = false then Except.ok none
  else if e.inst.isNone then Except.error "No working Nitter instances found"
  else
    let allTweets := collectTweets e.scraped
    if allTweets = [] then Except.ok none
    else Except.ok (some (generateSummaryAgent e.llm allTweets))

/-! ## Mirror instance selection

Embeds TweetScraper._find_working_source and _test_nitter_instance of
scripts/tweet_scraper.py lines 119 to 161, and
TwitterScraper.get_working_instance of ai_summary_agent.py lines 88 to
117.  Wall-clock time is modelled by a Nat of seconds, the cooldown
dict by an association list from instance to deadline, and each probe
request by a record of its outcome. -/

/-- The instance list of scripts/tweet_scraper.py lines 86 to 95. -/
def nitterInstancesScripts : List String :=
  ["https://nitter.poast.org",
   "https://nitter.privacydev.net",
   "https://nitter.unixfox.eu",
   "https://nitter.kavin.rocks",
   "https://nitter.net",
   "https://nitter.rawbit.ninja",
   "https://nitter.1d4.us",
   "https://nitter.moomoo.me"]

/-- The instance list of ai_summary_agent.py lines 39 to 55. -/
def nitterInstancesAgent : List String :=
  ["https://nitter.net",
   "https://nitter.privacydev.net",
   "https://nitter.poast.org",
   "https://nitter.woodland.cafe",
   "https://nitter.weiler.rocks",
   "https://nitter.rawbit.ninja",
   "https://nitter.moomoo.me",
   "https://nitter.1d4.us",
   "https://nitter.kavin.rocks",
   "https://nitter.unixfox.eu",
   "https://nitter.42l.fr",
   "https://nitter.nixnet.services",
   "https://nitter.fdn.fr",
   "https://nitter.40two.app",
   "https://nitter.mint.lgbt"]

/-- Outcome of probing one instance: whether the GET raised, the status
code, the final response URL after redirects, and whether the parsed
page contains each of the markup fragments checked by the scripts
version. -/
structure Probe where
  raised : Bool
  status : Nat
  url : String
  hasTimeline : Bool
  hasProfile : Bool
  hasTimelineItem : Bool
deriving DecidableEq

/-- Models dict assignment: replace the value of an existing key or
append a fresh entry. -/
def setCooldown : List (String × Nat) → String → Nat → List (String × Nat)
  | [], i, v => [(i, v)]
  | (k, w) :: rest, i, v =>
    if k = i then (k, v) :: rest
    else (k, w) :: setCooldown rest i v

/-- The redirect patterns checked by _test_nitter_instance, line 147 of
scripts/tweet_scraper.py, against the lowercased response URL. -/
def badUrlScripts (url : String) : Bool :=
  ["status.d420.de", "blocked", "error", "maintenance"].any
    (fun pat => occursIn pat (pyLower url))

/-- The part of _test_nitter_instance after the cooldown guard: fail on
exception or a redirect to a blocked page, accept a 200 response that
contains one of the three markup fragments, enter a 429 responder into
the cooldown dict for 120 seconds. -/
def testNitterScriptsBody (now : Nat) (cd : List (String × Nat)) (inst : String)
    (p : Probe) : Bool × List (String × Nat) :=
  if p.raised then (false, cd)
  else if badUrlScripts p.url then (false, cd)
  else if p.status = 200 then (p.hasTimeline || p.hasProfile || p.hasTimelineItem, cd)
  else if p.status = 429 then (false, setCooldown cd inst (now + 120))
  else (false, cd)

/-- Embeds TweetScraper._test_nitter_instance of
scripts/tweet_scraper.py lines 136 to 161: skip while cooling down,
then run the probe body. -/
def testNitterScripts (now : Nat) (cd : List (String × Nat)) (inst : String)
    (p : Probe) : Bool × List (String × Nat) :=
  match List.lookup inst cd with
  | some deadline =>
    if now < deadline then (false, cd) else testNitterScriptsBody now cd inst p
  | none => testNitterScriptsBody now cd inst p

/-- The scan of _find_working_source over the instance list, threading
the cooldown dict and returning the first accepted instance. -/
def scanScripts (now : Nat) (probes : String → Probe) :
    List String → List (String × Nat) → Option String × List (String × Nat)
  | [], cd => (none, cd)
  | i :: rest, cd =>
    let r := testNitterScripts now cd i (probes i)
    if r.1 then (some i, r.2) else scanScripts now probes rest r.2

/-- Embeds TweetScraper._find_working_source of scripts/tweet_scraper.py
lines 119 to 134. -/
def findWorkingSourceScripts (now : Nat) (cd : List (String × Nat))
    (probes : String → Probe) : Option String × List (String × Nat) :=
  scanScripts now probes nitterInstancesScripts cd

/-- The redirect check of get_working_instance, line 101 of
ai_summary_agent.py, on the raw response URL. -/
def badUrlAgent (url : String) : Bool :=
  occursIn "status.d420.de" url

/-- The body of one get_working_instance iteration after the cooldown
guard: continue on exception or a health-check redirect, accept any
200 response, enter a 429 responder into the cooldown dict for 90
seconds. -/
def testNitterAgentBody (now : Nat) (cd : List (String × Nat)) (inst : String)
    (p : Probe) : Bool × List (String × Nat) :=
  if p.raised then (false, cd)
  else if badUrlAgent p.url then (false, cd)
  else if p.status = 200 then (true, cd)
  else if p.status = 429 then (false, setCooldown cd inst (now + 90))
  else (false, cd)

/-- One iteration of the get_working_instance loop of
ai_summary_agent.py: skip while cooling down, then run the probe
body. -/
def testNitterAgent (now : Nat) (cd : List (String × Nat)) (inst : String)
    (p : Probe) : Bool × List (String × Nat) :=
  match List.lookup inst cd with
  | some deadline =>
    if now < deadline then (false, cd) else testNitterAgentBody now cd inst p
  | none => testNitterAgentBody now cd inst p

/-- The scan of get_working_instance over the instance list. -/
def scanAgent (now : Nat) (probes : String → Probe) :
    List String → List (String × Nat) → Option String × List (String × Nat)
  | [], cd => (none, cd)
  | i :: rest, cd =>
    let r := testNitterAgent now cd i (probes i)
    if r.1 then (some i, r.2) else scanAgent now probes rest r.2

/-- Embeds TwitterScraper.get_working_instance of ai_summary_agent.py
lines 88 to 117. -/
def getWorkingInstanceAgent (now : Nat) (cd : List (String × Nat))
    (probes : String → Probe) : Option String × List (String × Nat) :=
  scanAgent now probes nitterInstancesAgent cd

/-- The stateless acceptance test of the scripts selector, used to
characterize the scan. -/
def acceptScripts (now : Nat) (cd : List (String × Nat)) (probes : String → Probe)
    (i : String) : Bool :=
  (match List.lookup i cd with
   | some deadline => decide (deadline ≤ now)
   | none => true)
  && !(probes i).raised
  && !badUrlScripts (probes i).url
  && (probes i).status == 200
  && ((probes i).hasTimeline || (probes i).hasProfile || (probes i).hasTimelineItem)

/-- The stateless acceptance test of the agent selector. -/
def acceptAgent (now : Nat) (cd : List (String × Nat)) (probes : String → Probe)
    (i : String) : Bool :=
  (match List.lookup i cd with
   | some deadline => decide (deadline ≤ now)
   | none => true)
  && !(probes i).raised
  && !badUrlAgent (probes i).url
  && (probes i).status == 200

/-! ## get_user_tweets container processing

Embeds the per-container loops of the three get_user_tweets
implementations.  A scraped container is modelled by the data those
loops extract from it: the stripped text of the first matching text
element when one exists, and the date element with its attributes.
The HTTP fetch is modelled by its status code and the container list
the chosen selector produced. -/

/-- The date element found in a container by scripts/tweet_scraper.py
lines 262 to 266, with the attributes the code reads from it. -/
structure DateEl where
  title : Option String
  dtattr : Option String
  text : String
deriving DecidableEq

/-- A container as seen by the loop of scripts/tweet_scraper.py: the
stripped text of the first matching tweet-text element when one was
found, and the first matching date element when one was found. -/
structure ScrapedItem where
  textEl : Option String
  dateEl : Option DateEl
deriving DecidableEq

/-- Helper for dateStrOf: the datetime attribute, else the element
text, where None and the empty string are falsy. -/
def dateStrOfTail (d : DateEl) : Option String :=
  match d.dtattr with
  | some t => if t = "" then (if d.text = "" then none else some d.text) else some t
  | none => if d.text = "" then none else some d.text

/-- Models the truthiness chain of lines 270 to 276: the title
attribute, else the datetime attribute, else the element text. -/
def dateStrOf (d : DateEl) : Option String :=
  match d.title with
  | some t => if t = "" then dateStrOfTail d else some t
  | none => dateStrOfTail d

/-- The date attached to a container by scripts/tweet_scraper.py lines
260 to 281: none when no date element exists, the attribute chain is
empty, or parsing fails. -/
def containerDate (c : ScrapedItem) : Option PyDateTime :=
  match c.dateEl with
  | none => none
  | some de =>
    match dateStrOf de with
    | none => none
    | some ds => parseTweetDateScripts ds

/-- The per-container decision of scripts/tweet_scraper.py lines 243 to
303: none when the container is skipped, or the tweet line appended to
the result.  A container is skipped when no text element was found or
the stripped text is shorter than ten characters; a parsed date must
lie in the range; a missing or unparseable date falls back to
inclusion. -/
def containerTweet (u : String) (sd ed : PyDateTime) (c : ScrapedItem) : Option String :=
  match c.textEl with
  | none => none
  | some t =>
    if t = "" || (pyStrip t).length < 10 then none
    else
      match containerDate c with
      | some d => if dtLe sd d && dtLe d ed then some ("@" ++ u ++ ": " ++ t) else none
      | none => some ("@" ++ u ++ ": " ++ t)

/-- The container loop of scripts/tweet_scraper.py, accumulating tweet
lines and breaking once eight have been collected. -/
def processScripts (u : String) (sd ed : PyDateTime) :
    List ScrapedItem → List String → List String
  | [], acc => acc
  | c :: rest, acc =>
    match containerTweet u sd ed c with
    | none => processScripts u sd ed rest acc
    | some tw =>
      let acc2 := acc ++ [tw]
      if 8 ≤ acc2.length then acc2 else processScripts u sd ed rest acc2

/-- Embeds TweetScraper.get_user_tweets of scripts/tweet_scraper.py
lines 209 to 313: empty when no instance is set, the fetch raises or
does not return 200; otherwise process the first ten containers of the
chosen selector. -/
def getUserTweetsScripts (inst : Option String) (fetchRaised : Bool) (status : Nat)
    (containers : List ScrapedItem) (u : String) (sd ed : PyDateTime) : List String :=
  match inst with
  | none => []
  | some _ =>
    if fetchRaised then []
    else if status ≠ 200 then []
    else processScripts u sd ed (containers.take 10) []

/-- A container as seen by the loops of tweet_scraper.py and of
ai_summary_agent.py: the text of the tweet-content element when found,
and the title attribute of the date link when the chain of date
element, link and title attribute all exist. -/
structure SrcItem where
  content : Option String
  dateTitle : Option String
deriving DecidableEq

/-- The per-container decision of tweet_scraper.py lines 181 to 204: a
container lacking the text element, the date chain, or a parseable
date is skipped, and a parsed date must lie in the range. -/
def srcContainerTweet (u : String) (sd ed : PyDateTime) (c : SrcItem) : Option String :=
  match c.content, c.dateTitle with
  | some txt, some ds =>
    (match parseTweetDateSrc ds with
     | none => none
     | some d => if dtLe sd d && dtLe d ed then some ("@" ++ u ++ ": " ++ txt) else none)
  | _, _ => none

/-- The container loop of TweetScraper.get_user_tweets in
tweet_scraper.py, over the containers of one fetched page. -/
def processSrc (u : String) (sd ed : PyDateTime) : List SrcItem → List String
  | [] => []
  | c :: rest =>
    match srcContainerTweet u sd ed c with
    | some tw => tw :: processSrc u sd ed rest
    | none => processSrc u sd ed rest

/-- The per-container decision of ai_summary_agent.py lines 218 to 267,
identical in shape but parsing with the formats of that file. -/
def agentContainerTweet (u : String) (sd ed : PyDateTime) (c : SrcItem) : Option String :=
  match c.content, c.dateTitle with
  | some txt, some ds =>
    (match parseDateAgentInline ds with
     | none => none
     | some d => if dtLe sd d && dtLe d ed then some ("@" ++ u ++ ": " ++ txt) else none)
  | _, _ => none

/-- The container loop of TwitterScraper.get_user_tweets in
ai_summary_agent.py, over the containers of one fetched page. -/
def processAgent (u : String) (sd ed : PyDateTime) : List SrcItem → List String
  | [] => []
  | c :: rest =>
    match agentContainerTweet u sd ed c with
    | some tw => tw :: processAgent u sd ed rest
    | none => processAgent u sd ed rest

/-! ## General lemmas about the string utilities -/

theorem charsLeads_append (l t : List Char) : charsLeads l (l ++ t) = true := by
  induction l with
  | nil => rfl
  | cons a as ih => simp [charsLeads, ih]

theorem charsContains_append_right (p l : List Char) :
    charsContains l (p ++ l) = true := by
  induction p with
  | nil =>
    cases l with
    | nil => rfl
    | cons a as =>
      have h := charsLeads_append (a :: as) []
      rw [List.append_nil] at h
      simp [charsContains, h]
  | cons x p ih => simp [charsContains, ih]

theorem occursIn_append_right (pre msg : String) :
    occursIn msg (pre ++ msg) = true := by
  have : (pre ++ msg).data = pre.data ++ msg.data := by
    cases pre; cases msg; rfl
  rw [occursIn, this]
  exact charsContains_append_right pre.data msg.data

/-! ## Claim C7: the webhook payload -/

/-- Claim C7: for every summary message, the JSON payload sent to the
chat webhook is an object whose text field holds a string that is the
dated title line followed by the summary, hence a string containing
the summary; this holds for the payload of ai_summary_agent.py and for
the payload of scripts/twitter_scraper_scrapfly.py. -/
theorem slack_payload_text_contains_summary (today dayName message : String) :
    List.lookup "text" (slackPayloadAgent today message)
      = some (JVal.jstr (slackTitleAgent today ++ message))
    ∧ occursIn message (slackTitleAgent today ++ message) = true
    ∧ List.lookup "text" (slackPayloadScrapfly dayName today message)
      = some (JVal.jstr (slackTitleScrapfly dayName today ++ message))
    ∧ occursIn message (slackTitleScrapfly dayName today ++ message) = true := by
  refine ⟨?_, occursIn_append_right _ _, ?_, occursIn_append_right _ _⟩ <;> rfl

/-! ## Claim C10: send_to_slack without a webhook URL -/

/-- Claim C10: for every message and every possible HTTP outcome, when
the SLACK_WEBHOOK_URL environment variable is unset or empty,
send_to_slack of scripts/tweet_scraper.py and of ai_summary_agent.py
returns False and issues no HTTP request. -/
theorem send_to_slack_without_webhook (post : PostOutcome) (message : String) :
    sendToSlackScripts none post message = (false, false)
    ∧ sendToSlackScripts (some "") post message = (false, false)
    ∧ sendToSlackAgent none post message = (false, false)
    ∧ sendToSlackAgent (some "") post message = (false, false) := by
  refine ⟨rfl, ?_, rfl, ?_⟩ <;> simp [sendToSlackScripts, sendToSlackAgent]

/-! ## Claim C5: the date range -/

theorem daysInMonth_pos (y m : Nat) : 1 ≤ daysInMonth y m := by
  unfold daysInMonth
  split <;> split <;> omega

theorem nextDay_prevDay (y m d : Nat) (h : ValidDate y m d) :
    nextDayTriple (prevDayTriple y m d).1 (prevDayTriple y m d).2.1
      (prevDayTriple y m d).2.2 = (y, m, d) := by
  obtain ⟨hy, hm1, hm2, hd1, hd2⟩ := h
  by_cases hd : 2 ≤ d
  · have hlt : d - 1 < daysInMonth y m := by omega
    simp only [prevDayTriple, if_pos hd, nextDayTriple, if_pos hlt]
    refine congrArg₂ Prod.mk rfl (congrArg₂ Prod.mk rfl ?_)
    omega
  · by_cases hm : 2 ≤ m
    · simp only [prevDayTriple, if_neg hd, if_pos hm, nextDayTriple,
        if_neg (Nat.lt_irrefl (daysInMonth y (m - 1)))]
      have hlt : m - 1 < 12 := by omega
      rw [if_pos hlt]
      refine congrArg₂ Prod.mk rfl (congrArg₂ Prod.mk ?_ ?_) <;> omega
    · have hm' : m = 1 := by omega
      have hd' : d = 1 := by omega
      subst hm'; subst hd'
      have h12 : daysInMonth (y - 1) 12 = 31 := by norm_num [daysInMonth]
      simp only [prevDayTriple, if_neg hd, nextDayTriple, h12,
        if_neg (Nat.lt_irrefl 31)]
      norm_num
      omega

theorem dtLt_midnight_endOfDay (y m d : Nat) :
    dtLt ⟨y, m, d, 0, 0, 0, true⟩ ⟨y, m, d, 23, 59, 59, true⟩ = true := by
  simp [dtLt, dtLe, PyDateTime.mk.injEq]

/-- Claim C5: for every current UTC datetime with a well-formed date,
the date-range function returns a pair of UTC-aware timestamps that
fall on the same day, the calendar predecessor of the current day,
with the start at 00:00:00 and the end at 23:59:59 of that day, so the
start is strictly before the end. -/
theorem date_range_previous_day (now : PyDateTime)
    (h : ValidDate now.year now.month now.day) :
    nextDayTriple (getDateRange now).1.year (getDateRange now).1.month
      (getDateRange now).1.day = (now.year, now.month, now.day)
    ∧ (getDateRange now).1.year = (getDateRange now).2.year
    ∧ (getDateRange now).1.month = (getDateRange now).2.month
    ∧ (getDateRange now).1.day = (getDateRange now).2.day
    ∧ (getDateRange now).1.hour = 0
    ∧ (getDateRange now).1.minute = 0
    ∧ (getDateRange now).1.second = 0
    ∧ (getDateRange now).2.hour = 23
    ∧ (getDateRange now).2.minute = 59
    ∧ (getDateRange now).2.second = 59
    ∧ (getDateRange now).1.tzaware = true
    ∧ (getDateRange now).2.tzaware = true
    ∧ dtLt (getDateRange now).1 (getDateRange now).2 = true := by
  refine ⟨?_, rfl, rfl, rfl, rfl, rfl, rfl, rfl, rfl, rfl, rfl, rfl, ?_⟩
  · exact nextDay_prevDay now.year now.month now.day h
  · exact dtLt_midnight_endOfDay _ _ _

/-- Witness for claim C5 at a concrete datetime crossing a month
boundary. -/
theorem date_range_previous_day_witness :
    ValidDate 2026 3 1
    ∧ nextDayTriple (getDateRange (PyDateTime.mk 2026 3 1 12 0 0 true)).1.year
        (getDateRange (PyDateTime.mk 2026 3 1 12 0 0 true)).1.month
        (getDateRange (PyDateTime.mk 2026 3 1 12 0 0 true)).1.day = (2026, 3, 1) :=
  ⟨by decide, (date_range_previous_day (PyDateTime.mk 2026 3 1 12 0 0 true) (by decide)).1⟩

/-! ## Claim C6: the prompt is built from a bounded number of posts -/

/-- Claim C6: the language-model prompt of generate_summary is built
from at most the first 20 posts in ai_summary_agent.py and the first
25 posts in scripts/tweet_scraper.py, so the prompt is unchanged by
truncating the list at that bound, and two collections agreeing on
that bound yield the same prompt. -/
theorem prompt_uses_bounded_posts (ts1 ts2 : List String) :
    buildPromptAgent ts1 = buildPromptAgent (ts1.take 20)
    ∧ buildPromptScripts ts1 = buildPromptScripts (ts1.take 25)
    ∧ (ts1.take 20 = ts2.take 20 → buildPromptAgent ts1 = buildPromptAgent ts2)
    ∧ (ts1.take 25 = ts2.take 25 → buildPromptScripts ts1 = buildPromptScripts ts2) := by
  refine ⟨?_, ?_, fun h => ?_, fun h => ?_⟩ <;>
    simp [buildPromptAgent, buildPromptScripts, List.take_take, *]

/-- Witness for claim C6: two 21-post collections that differ only in
the final post produce the same agent prompt. -/
theorem prompt_uses_bounded_posts_witness :
    (List.replicate 20 "x" ++ ["y"]).take 20 = (List.replicate 20 "x" ++ ["z"]).take 20
    ∧ buildPromptAgent (List.replicate 20 "x" ++ ["y"])
      = buildPromptAgent (List.replicate 20 "x" ++ ["z"]) :=
  ⟨by decide,
   (prompt_uses_bounded_posts (List.replicate 20 "x" ++ ["y"])
     (List.replicate 20 "x" ++ ["z"])).2.2.1 (by decide)⟩

/-! ## Claim C1: the keyword buckets -/

theorem mem_bucketOf_addToBucket (bs : List (String × List String))
    (cat tw cat' t : String) :
    t ∈ bucketOf (addToBucket bs cat tw) cat' ↔
      t ∈ bucketOf bs cat' ∨ (cat' = cat ∧ t = tw) := by
  induction bs with
  | nil =>
    by_cases h : cat = cat' <;>
      simp [addToBucket, bucketOf, h] <;>
      simp [eq_comm, h]
  | cons p rest ih =>
    obtain ⟨k, ts⟩ := p
    by_cases hk : k = cat
    · subst hk
      by_cases hc : k = cat'
      · subst hc
        simp [addToBucket, bucketOf, List.mem_append, eq_comm]
      · simp only [addToBucket, if_pos rfl, bucketOf, if_neg hc]
        have : ¬ cat' = k := fun h => hc h.symm
        simp [this]
    · by_cases hc : k = cat'
      · subst hc
        have : ¬ k = cat := hk
        simp only [addToBucket, if_neg hk, bucketOf, if_pos rfl]
        have h2 : ¬ k = cat := hk
        constructor
        · exact fun hm => Or.inl hm
        · rintro (hm | ⟨hcc, _⟩)
          · exact hm
          · exact absurd hcc hk
      · simp [addToBucket, bucketOf, hk, hc, ih]

theorem mem_bucketOf_categorize (topics : List (String × List String)) :
    ∀ (ts : List String) (acc : List (String × List String)) (t c : String),
    t ∈ bucketOf (ts.foldl (categorizeStep topics) acc) c ↔
      t ∈ bucketOf acc c ∨
        (t ∈ ts ∧ firstMatchingCategory topics (pyLower t) = some c) := by
  intro ts
  induction ts with
  | nil => simp
  | cons tw rest ih =>
    intro acc t c
    rw [List.foldl_cons, ih]
    rcases h : firstMatchingCategory topics (pyLower tw) with _ | cat
    · rw [categorizeStep, h]
      constructor
      · rintro (hm | ⟨hr, ha⟩)
        · exact Or.inl hm
        · exact Or.inr ⟨List.mem_cons_of_mem _ hr, ha⟩
      · rintro (hm | ⟨hmem, ha⟩)
        · exact Or.inl hm
        · rcases List.mem_cons.mp hmem with heq | hr
          · subst heq; rw [ha] at h; cases h
          · exact Or.inr ⟨hr, ha⟩
    · rw [categorizeStep, h, mem_bucketOf_addToBucket]
      constructor
      · rintro ((hm | ⟨hc, htw⟩) | ⟨hr, ha⟩)
        · exact Or.inl hm
        · subst htw; subst hc
          exact Or.inr ⟨List.mem_cons_self _ _, h⟩
        · exact Or.inr ⟨List.mem_cons_of_mem _ hr, ha⟩
      · rintro (hm | ⟨hmem, ha⟩)
        · exact Or.inl (Or.inl hm)
        · rcases List.mem_cons.mp hmem with heq | hr
          · subst heq
            rw [h] at ha
            exact Or.inl (Or.inr ⟨(Option.some.injEq _ _ ▸ ha).symm, rfl⟩)
          · exact Or.inr ⟨hr, ha⟩

theorem firstMatchingCategory_spec (tl c : String) :
    ∀ topics : List (String × List String),
    firstMatchingCategory topics tl = some c ↔
      ∃ pre kws post, topics = pre ++ (c, kws) :: post
        ∧ anyKeyword kws tl = true
        ∧ ∀ p ∈ pre, anyKeyword p.2 tl = false := by
  intro topics
  induction topics with
  | nil => simp [firstMatchingCategory]
  | cons p rest ih =>
    obtain ⟨cat, kws⟩ := p
    rcases hk : anyKeyword kws tl with _ | _
    · simp only [firstMatchingCategory, hk, Bool.false_eq_true, if_false, ih]
      constructor
      · rintro ⟨pre, kws', post, heq, hany, hpre⟩
        refine ⟨(cat, kws) :: pre, kws', post, by rw [heq, List.cons_append], hany, ?_⟩
        rintro q hq
        rcases List.mem_cons.mp hq with rfl | hq'
        · exact hk
        · exact hpre q hq'
      · rintro ⟨pre, kws', post, heq, hany, hpre⟩
        cases pre with
        | nil =>
          rw [List.nil_append] at heq
          injection heq with h1 h2
          have hkk : kws = kws' := congrArg Prod.snd h1
          rw [← hkk] at hany
          rw [hany] at hk
          cases hk
        | cons q pre' =>
          rw [List.cons_append] at heq
          injection heq with h1 h2
          exact ⟨pre', kws', post, h2, hany,
            fun r hr => hpre r (h1 ▸ List.mem_cons_of_mem _ hr)⟩
    · simp only [firstMatchingCategory, hk, if_true, Option.some.injEq]
      constructor
      · rintro rfl
        exact ⟨[], kws, rest, rfl, hk, by simp⟩
      · rintro ⟨pre, kws', post, heq, hany, hpre⟩
        cases pre with
        | nil =>
          rw [List.nil_append] at heq
          injection heq with h1 h2
          exact congrArg Prod.fst h1
        | cons q pre' =>
          rw [List.cons_append] at heq
          injection heq with h1 h2
          have hq := hpre q (List.mem_cons_self _ _)
          rw [← h1] at hq
          simp only at hq
          rw [hq] at hk
          cases hk

/-- Counterexample to claim C1 as stated: in scripts/tweet_scraper.py,
generate_manual_summary categorizes only the first twenty posts, so in
a list of twenty keyword-free posts followed by the post gpt, the
final post matches a keyword of the model category yet lands in no
bucket. -/
theorem manual_summary_counterexample :
    firstMatchingCategory topicsScripts (pyLower "gpt") = some "model"
    ∧ ¬ "gpt" ∈ bucketOf (categorizedScripts (List.replicate 20 "zzzz" ++ ["gpt"])) "model" := by
  constructor
  · decide
  · decide

/-- Claim C1 (amended): each post lands in at most one bucket of
generate_manual_summary; among the posts the function examines, all of
them in scripts/twitter_scraper_scrapfly.py and only the first twenty
in scripts/tweet_scraper.py, a post is in the bucket of a category
exactly when that category is the first of the fixed topics table one
of whose keywords occurs in the lowercased post text; and the
first-match function is characterized by a split of the table into
earlier non-matching categories and the matching one. -/
theorem manual_summary_buckets (tweets : List String) (t c : String) :
    (t ∈ bucketOf (categorizedScrapfly tweets) c ↔
      t ∈ tweets ∧ firstMatchingCategory topicsScrapfly (pyLower t) = some c)
    ∧ (t ∈ bucketOf (categorizedScripts tweets) c ↔
      t ∈ tweets.take 20 ∧ firstMatchingCategory topicsScripts (pyLower t) = some c)
    ∧ (∀ c', t ∈ bucketOf (categorizedScrapfly tweets) c →
        t ∈ bucketOf (categorizedScrapfly tweets) c' → c = c')
    ∧ (∀ c', t ∈ bucketOf (categorizedScripts tweets) c →
        t ∈ bucketOf (categorizedScripts tweets) c' → c = c')
    ∧ (∀ (topics : List (String × List String)) (tl c0 : String),
        firstMatchingCategory topics tl = some c0 ↔
          ∃ pre kws post, topics = pre ++ (c0, kws) :: post
            ∧ anyKeyword kws tl = true
            ∧ ∀ p ∈ pre, anyKeyword p.2 tl = false) := by
  have h1 : t ∈ bucketOf (categorizedScrapfly tweets) c ↔
      t ∈ tweets ∧ firstMatchingCategory topicsScrapfly (pyLower t) = some c := by
    rw [categorizedScrapfly, mem_bucketOf_categorize]
    simp [bucketOf]
  have h2 : t ∈ bucketOf (categorizedScripts tweets) c ↔
      t ∈ tweets.take 20 ∧ firstMatchingCategory topicsScripts (pyLower t) = some c := by
    rw [categorizedScripts, mem_bucketOf_categorize]
    simp [bucketOf]
  refine ⟨h1, h2, ?_, ?_, fun topics tl c0 => firstMatchingCategory_spec tl c0 topics⟩
  · intro c' hc hc'
    have a1 := (h1.mp hc).2
    have a2 : firstMatchingCategory topicsScrapfly (pyLower t) = some c' := by
      have hx : t ∈ bucketOf (categorizedScrapfly tweets) c' ↔
          t ∈ tweets ∧ firstMatchingCategory topicsScrapfly (pyLower t) = some c' := by
        rw [categorizedScrapfly, mem_bucketOf_categorize]
        simp [bucketOf]
      exact (hx.mp hc').2
    rw [a1] at a2
    exact (Option.some.injEq _ _ ▸ a2)
  · intro c' hc hc'
    have a1 := (h2.mp hc).2
    have a2 : firstMatchingCategory topicsScripts (pyLower t) = some c' := by
      have hx : t ∈ bucketOf (categorizedScripts tweets) c' ↔
          t ∈ tweets.take 20 ∧ firstMatchingCategory topicsScripts (pyLower t) = some c' := by
        rw [categorizedScripts, mem_bucketOf_categorize]
        simp [bucketOf]
      exact (hx.mp hc').2
    rw [a1] at a2
    exact (Option.some.injEq _ _ ▸ a2)

/-- Witness for claim C1: a concrete post lands in the product bucket
of the scrapfly table, and bucket membership forces bucket
uniqueness at that input. -/
theorem manual_summary_buckets_witness :
    "gpt is new" ∈ bucketOf (categorizedScrapfly ["gpt is new"]) "product"
    ∧ "gpt is new" ∈ bucketOf (categorizedScripts ["gpt is new"]) "model"
    ∧ "model" = "model" :=
  ⟨(manual_summary_buckets ["gpt is new"] "gpt is new" "product").1.mpr
     (by constructor <;> decide),
   by decide,
   (manual_summary_buckets ["gpt is new"] "gpt is new" "model").2.2.2.1 "model"
     (by decide) (by decide)⟩

/-! ## Claim C2: date parsing tries the patterns in sequence -/

theorem tryFormatsScripts_eq_none (s : String) :
    ∀ fmts, tryFormatsScripts fmts s = none ↔
      ∀ f ∈ fmts, pyStrptime (pyStrip s) f = none := by
  intro fmts
  induction fmts with
  | nil => simp [tryFormatsScripts]
  | cons f rest ih =>
    cases h : pyStrptime (pyStrip s) f with
    | none => simp [tryFormatsScripts, h, ih]
    | some dt => simp [tryFormatsScripts, h]

theorem tryFormatsScripts_first (s : String) :
    ∀ (pre : List String) (f : String) (post : List String) (dt : PyDateTime),
      (∀ g ∈ pre, pyStrptime (pyStrip s) g = none) →
      pyStrptime (pyStrip s) f = some dt →
      tryFormatsScripts (pre ++ f :: post) s = some (localizeIfNaive dt) := by
  intro pre
  induction pre with
  | nil =>
    intro f post dt _ hf
    simp [tryFormatsScripts, hf]
  | cons g pre' ih =>
    intro f post dt hpre hf
    have hg : pyStrptime (pyStrip s) g = none := hpre g (List.mem_cons_self _ _)
    rw [List.cons_append]
    simp only [tryFormatsScripts, hg]
    exact ih f post dt (fun x hx => hpre x (List.mem_cons_of_mem _ hx)) hf

theorem buildNaive_naive (st : ParseFields) (dt : PyDateTime)
    (h : buildNaive st = some dt) : dt.tzaware = false := by
  simp only [buildNaive] at h
  by_cases hd : st.fday.getD 1 ≤ daysInMonth (st.fyear.getD 1900) (st.fmonth.getD 1)
  · rw [if_pos hd] at h
    injection h with h2
    rw [← h2]
  · rw [if_neg hd] at h
    cases h

theorem pyStrptime_naive (s f : String) (dt : PyDateTime)
    (h : pyStrptime s f = some dt) : dt.tzaware = false := by
  unfold pyStrptime at h
  cases hr : runFormat f.data s.data emptyFields with
  | none => rw [hr] at h; cases h
  | some st =>
    rw [hr] at h
    exact buildNaive_naive st dt h

theorem tryFormatsScripts_aware (s : String) :
    ∀ fmts dt, tryFormatsScripts fmts s = some dt → dt.tzaware = true := by
  intro fmts
  induction fmts with
  | nil => intro dt h; cases h
  | cons f rest ih =>
    intro dt h
    cases hf : pyStrptime (pyStrip s) f with
    | none =>
      rw [tryFormatsScripts, hf] at h
      exact ih dt h
    | some d =>
      rw [tryFormatsScripts, hf] at h
      cases h
      have := pyStrptime_naive _ _ _ hf
      simp [localizeIfNaive, this, pyLocalizeUTC]

/-- Claim C2: the tweet-date parsers try their fixed strptime pattern
lists in sequence, return the datetime of the first pattern that
parses localized to UTC, and return None when the string is empty or
no pattern parses; stated for the eight-pattern parser of
scripts/tweet_scraper.py and the two-pattern parser of
tweet_scraper.py. -/
theorem parse_tweet_date_first_match (s : String) :
    (parseTweetDateScripts s = none ↔
      s = "" ∨ ∀ f ∈ formatsScripts, pyStrptime (pyStrip s) f = none)
    ∧ (∀ (pre : List String) (f : String) (post : List String) (dt : PyDateTime),
        formatsScripts = pre ++ f :: post →
        (∀ g ∈ pre, pyStrptime (pyStrip s) g = none) →
        pyStrptime (pyStrip s) f = some dt →
        s ≠ "" →
        parseTweetDateScripts s = some (localizeIfNaive dt))
    ∧ (∀ dt, parseTweetDateScripts s = some dt → dt.tzaware = true)
    ∧ (parseTweetDateSrc s = none ↔
        (pyStrptime s formatSrcOne = none ∧ pyStrptime s formatSrcTwo = none))
    ∧ (∀ dt, pyStrptime s formatSrcOne = some dt →
        parseTweetDateSrc s = some (pyLocalizeUTC dt))
    ∧ (∀ dt, pyStrptime s formatSrcOne = none →
        pyStrptime s formatSrcTwo = some dt →
        parseTweetDateSrc s = some (pyLocalizeUTC dt))
    ∧ (∀ dt, parseTweetDateSrc s = some dt → dt.tzaware = true) := by
  refine ⟨?_, ?_, ?_, ?_, ?_, ?_, ?_⟩
  · by_cases hs : s = ""
    · simp [parseTweetDateScripts, hs]
    · simp only [parseTweetDateScripts, if_neg hs]
      rw [tryFormatsScripts_eq_none]
      simp [hs]
  · intro pre f post dt heq hpre hf hs
    rw [parseTweetDateScripts, if_neg hs, heq]
    exact tryFormatsScripts_first s pre f post dt hpre hf
  · intro dt h
    by_cases hs : s = ""
    · rw [parseTweetDateScripts, if_pos hs] at h; cases h
    · rw [parseTweetDateScripts, if_neg hs] at h
      exact tryFormatsScripts_aware s formatsScripts dt h
  · unfold parseTweetDateSrc
    cases h1 : pyStrptime s formatSrcOne with
    | some d => simp
    | none =>
      cases h2 : pyStrptime s formatSrcTwo with
      | some d => simp
      | none => simp
  · intro dt h1
    unfold parseTweetDateSrc
    rw [h1]
  · intro dt h1 h2
    unfold parseTweetDateSrc
    rw [h1, h2]
  · intro dt h
    unfold parseTweetDateSrc at h
    cases h1 : pyStrptime s formatSrcOne with
    | some d =>
      rw [h1] at h
      cases h
      simp [pyLocalizeUTC]
    | none =>
      rw [h1] at h
      cases h2 : pyStrptime s formatSrcTwo with
      | some d =>
        rw [h2] at h
        cases h
        simp [pyLocalizeUTC]
      | none => rw [h2] at h; cases h

/-- Witness for claim C2: the date May 27, 2025 fails the first seven
patterns of scripts/tweet_scraper.py and parses with the eighth,
yielding that date at midnight localized to UTC. -/
theorem parse_tweet_date_first_match_witness :
    (∀ g ∈ ["%b %d, %Y ¬∑ %I:%M %p UTC",
            "%b %d, %Y ¬∑ %H:%M UTC",
            "%I:%M %p ¬∑ %b %d, %Y",
            "%H:%M ¬∑ %b %d, %Y",
            "%b %d, %Y at %I:%M %p UTC",
            "%b %d, %Y at %H:%M UTC",
            "%Y-%m-%d %H:%M:%S UTC"],
      pyStrptime (pyStrip "May 27, 2025") g = none)
    ∧ pyStrptime (pyStrip "May 27, 2025") "%b %d, %Y"
        = some (PyDateTime.mk 2025 5 27 0 0 0 false)
    ∧ parseTweetDateScripts "May 27, 2025"
        = some (localizeIfNaive (PyDateTime.mk 2025 5 27 0 0 0 false)) :=
  ⟨by decide, by decide,
   (parse_tweet_date_first_match "May 27, 2025").2.1
     ["%b %d, %Y ¬∑ %I:%M %p UTC",
      "%b %d, %Y ¬∑ %H:%M UTC",
      "%I:%M %p ¬∑ %b %d, %Y",
      "%H:%M ¬∑ %b %d, %Y",
      "%b %d, %Y at %I:%M %p UTC",
      "%b %d, %Y at %H:%M UTC",
      "%Y-%m-%d %H:%M:%S UTC"]
     "%b %d, %Y" [] (PyDateTime.mk 2025 5 27 0 0 0 false)
     rfl (by decide) (by decide) (by decide)⟩

/-! ## Claim C9: shape of the scripts get_user_tweets result -/

theorem containerTweet_shape (u : String) (sd ed : PyDateTime) (c : ScrapedItem)
    (tw : String) (h : containerTweet u sd ed c = some tw) :
    ∃ t, c.textEl = some t ∧ tw = "@" ++ u ++ ": " ++ t := by
  unfold containerTweet at h
  cases ht : c.textEl with
  | none => rw [ht] at h; cases h
  | some t =>
    rw [ht] at h
    dsimp only at h
    by_cases hshort : t = "" || (pyStrip t).length < 10
    · rw [if_pos hshort] at h; cases h
    · rw [if_neg hshort] at h
      refine ⟨t, rfl, ?_⟩
      cases hd : containerDate c with
      | none =>
        rw [hd] at h
        injection h with h2
        exact h2.symm
      | some d =>
        rw [hd] at h
        dsimp only at h
        by_cases hr : dtLe sd d && dtLe d ed
        · rw [if_pos hr] at h
          injection h with h2
          exact h2.symm
        · rw [if_neg hr] at h; cases h

theorem containerTweet_none_of_short (u : String) (sd ed : PyDateTime)
    (c : ScrapedItem) (t : String) (ht : c.textEl = some t)
    (hshort : (pyStrip t).length < 10) :
    containerTweet u sd ed c = none := by
  unfold containerTweet
  rw [ht]
  dsimp only
  have h2 : (t = "" || (pyStrip t).length < 10) = true := by
    simp [hshort]
  rw [if_pos h2]

theorem processScripts_length_le (u : String) (sd ed : PyDateTime) :
    ∀ (l : List ScrapedItem) (acc : List String), acc.length ≤ 7 →
      (processScripts u sd ed l acc).length ≤ 8 := by
  intro l
  induction l with
  | nil => intro acc h; simpa [processScripts] using Nat.le_trans h (by omega)
  | cons c rest ih =>
    intro acc h
    rw [processScripts]
    cases hc : containerTweet u sd ed c with
    | none => exact ih acc h
    | some tw =>
      simp only
      by_cases hcap : 8 ≤ (acc ++ [tw]).length
      · rw [if_pos hcap]
        simp only [List.length_append, List.length_cons, List.length_nil]
        omega
      · rw [if_neg hcap]
        refine ih (acc ++ [tw]) ?_
        simp only [List.length_append, List.length_cons, List.length_nil] at hcap ⊢
        omega

theorem processScripts_forms (u : String) (sd ed : PyDateTime) :
    ∀ (l : List ScrapedItem) (acc : List String),
      (∀ x ∈ acc, ∃ body, x = "@" ++ u ++ ": " ++ body) →
      ∀ x ∈ processScripts u sd ed l acc, ∃ body, x = "@" ++ u ++ ": " ++ body := by
  intro l
  induction l with
  | nil => intro acc h; simpa [processScripts] using h
  | cons c rest ih =>
    intro acc h
    rw [processScripts]
    cases hc : containerTweet u sd ed c with
    | none => exact ih acc h
    | some tw =>
      simp only
      have hacc2 : ∀ x ∈ acc ++ [tw], ∃ body, x = "@" ++ u ++ ": " ++ body := by
        intro x hx
        rcases List.mem_append.mp hx with hx1 | hx2
        · exact h x hx1
        · obtain ⟨t, _, hform⟩ := containerTweet_shape u sd ed c tw hc
          rw [List.mem_singleton.mp hx2, hform]
          exact ⟨t, rfl⟩
      by_cases hcap : 8 ≤ (acc ++ [tw]).length
      · rw [if_pos hcap]; exact hacc2
      · rw [if_neg hcap]; exact ih (acc ++ [tw]) hacc2

theorem processScripts_skip (u : String) (sd ed : PyDateTime) (c : ScrapedItem)
    (hc : containerTweet u sd ed c = none) :
    ∀ (pre post : List ScrapedItem) (acc : List String),
      processScripts u sd ed (pre ++ c :: post) acc
        = processScripts u sd ed (pre ++ post) acc := by
  intro pre
  induction pre with
  | nil =>
    intro post acc
    simp only [List.nil_append, processScripts, hc]
  | cons p pre' ih =>
    intro post acc
    simp only [List.cons_append, processScripts]
    cases hp : containerTweet u sd ed p with
    | none => exact ih post acc
    | some tw =>
      simp only
      by_cases hcap : 8 ≤ (acc ++ [tw]).length
      · rw [if_pos hcap, if_pos hcap]
      · rw [if_neg hcap, if_neg hcap]
        exact ih post (acc ++ [tw])

/-- Claim C9: for every instance, fetch outcome, container list,
username and date range, get_user_tweets of scripts/tweet_scraper.py
returns at most eight strings, each consisting of an at sign, the
username, a colon and a space followed by the post text; and its
container loop skips any container whose extracted text is shorter
than ten characters. -/
theorem get_user_tweets_scripts_shape (inst : Option String) (fetchRaised : Bool)
    (status : Nat) (containers : List ScrapedItem) (u : String) (sd ed : PyDateTime) :
    (getUserTweetsScripts inst fetchRaised status containers u sd ed).length ≤ 8
    ∧ (∀ x ∈ getUserTweetsScripts inst fetchRaised status containers u sd ed,
        ∃ body, x = "@" ++ u ++ ": " ++ body)
    ∧ (∀ (pre post : List ScrapedItem) (c : ScrapedItem) (acc : List String) (t : String),
        c.textEl = some t → (pyStrip t).length < 10 →
        processScripts u sd ed (pre ++ c :: post) acc
          = processScripts u sd ed (pre ++ post) acc) := by
  refine ⟨?_, ?_, ?_⟩
  · cases inst with
    | none => simp [getUserTweetsScripts]
    | some i =>
      unfold getUserTweetsScripts
      by_cases hf : fetchRaised
      · simp [hf]
      · by_cases hs : status ≠ 200
        · simp [hf, hs]
        · simp only [hf, hs, if_false, if_neg]
          exact processScripts_length_le u sd ed _ [] (by simp)
  · cases inst with
    | none => simp [getUserTweetsScripts]
    | some i =>
      unfold getUserTweetsScripts
      by_cases hf : fetchRaised
      · simp [hf]
      · by_cases hs : status ≠ 200
        · simp [hf, hs]
        · simp only [hf, hs, if_false, if_neg]
          exact processScripts_forms u sd ed _ [] (by simp)
  · intro pre post c acc t ht hshort
    exact processScripts_skip u sd ed c
      (containerTweet_none_of_short u sd ed c t ht hshort) pre post acc

/-- Witness for claim C9: a container with the nine-character text
shortpost is skipped by the loop. -/
theorem get_user_tweets_scripts_shape_witness :
    (ScrapedItem.mk (some "shortpost") none).textEl = some "shortpost"
    ∧ (pyStrip "shortpost").length < 10
    ∧ processScripts "OpenAI" (PyDateTime.mk 2025 5 27 0 0 0 true)
        (PyDateTime.mk 2025 5 27 23 59 59 true)
        ([] ++ ScrapedItem.mk (some "shortpost") none :: []) []
      = processScripts "OpenAI" (PyDateTime.mk 2025 5 27 0 0 0 true)
          (PyDateTime.mk 2025 5 27 23 59 59 true) ([] ++ []) [] :=
  ⟨rfl, by decide,
   (get_user_tweets_scripts_shape none false 200 [] "OpenAI"
       (PyDateTime.mk 2025 5 27 0 0 0 true)
       (PyDateTime.mk 2025 5 27 23 59 59 true)).2.2
     [] [] (ScrapedItem.mk (some "shortpost") none) [] "shortpost" rfl (by decide)⟩

/-! ## Claim C3: the fate of undated posts -/

theorem containerTweet_undated (u : String) (sd ed : PyDateTime) (c : ScrapedItem)
    (t : String) (ht : c.textEl = some t)
    (hlong : (t = "" || (pyStrip t).length < 10) = false)
    (hdate : containerDate c = none) :
    containerTweet u sd ed c = some ("@" ++ u ++ ": " ++ t) := by
  unfold containerTweet
  rw [ht]
  simp [hlong, hdate]

theorem processScripts_mem_acc (u : String) (sd ed : PyDateTime) :
    ∀ (l : List ScrapedItem) (acc : List String) (x : String),
      x ∈ acc → x ∈ processScripts u sd ed l acc := by
  intro l
  induction l with
  | nil => intro acc x hx; simpa [processScripts] using hx
  | cons c rest ih =>
    intro acc x hx
    rw [processScripts]
    cases hc : containerTweet u sd ed c with
    | none => exact ih acc x hx
    | some tw =>
      simp only
      by_cases hcap : 8 ≤ (acc ++ [tw]).length
      · rw [if_pos hcap]
        exact List.mem_append.mpr (Or.inl hx)
      · rw [if_neg hcap]
        exact ih (acc ++ [tw]) x (List.mem_append.mpr (Or.inl hx))

theorem processScripts_append (u : String) (sd ed : PyDateTime) :
    ∀ (l1 l2 : List ScrapedItem) (acc : List String),
      (processScripts u sd ed l1 acc).length < 8 →
      processScripts u sd ed (l1 ++ l2) acc
        = processScripts u sd ed l2 (processScripts u sd ed l1 acc) := by
  intro l1
  induction l1 with
  | nil => intro l2 acc _; simp [processScripts]
  | cons c rest ih =>
    intro l2 acc hlen
    cases hc : containerTweet u sd ed c with
    | none =>
      have e1 : processScripts u sd ed (c :: rest) acc = processScripts u sd ed rest acc := by
        rw [processScripts, hc]
      have e2 : processScripts u sd ed ((c :: rest) ++ l2) acc
          = processScripts u sd ed (rest ++ l2) acc := by
        rw [List.cons_append, processScripts, hc]
      rw [e1] at hlen
      rw [e2, e1]
      exact ih l2 acc hlen
    | some tw =>
      by_cases hcap : 8 ≤ (acc ++ [tw]).length
      · have e1 : processScripts u sd ed (c :: rest) acc = acc ++ [tw] := by
          rw [processScripts, hc]
          dsimp only
          rw [if_pos hcap]
        rw [e1] at hlen
        exact absurd hlen (by omega)
      · have e1 : processScripts u sd ed (c :: rest) acc
            = processScripts u sd ed rest (acc ++ [tw]) := by
          rw [processScripts, hc]
          dsimp only
          rw [if_neg hcap]
        have e2 : processScripts u sd ed ((c :: rest) ++ l2) acc
            = processScripts u sd ed (rest ++ l2) (acc ++ [tw]) := by
          rw [List.cons_append, processScripts, hc]
          dsimp only
          rw [if_neg hcap]
        rw [e1] at hlen
        rw [e2, e1]
        exact ih l2 (acc ++ [tw]) hlen

theorem srcContainerTweet_none_of_parse_fail (u : String) (sd ed : PyDateTime)
    (c : SrcItem) (ds : String) (hds : c.dateTitle = some ds)
    (hparse : parseTweetDateSrc ds = none) :
    srcContainerTweet u sd ed c = none := by
  unfold srcContainerTweet
  cases hc : c.content with
  | none => rfl
  | some txt =>
    rw [hds]
    dsimp only
    rw [hparse]

theorem processSrc_skip (u : String) (sd ed : PyDateTime) (c : SrcItem)
    (hc : srcContainerTweet u sd ed c = none) :
    ∀ (pre post : List SrcItem),
      processSrc u sd ed (pre ++ c :: post) = processSrc u sd ed (pre ++ post) := by
  intro pre
  induction pre with
  | nil =>
    intro post
    simp only [List.nil_append, processSrc, hc]
  | cons p pre' ih =>
    intro post
    simp only [List.cons_append, processSrc]
    cases hp : srcContainerTweet u sd ed p with
    | none => exact ih post
    | some tw => exact congrArg (fun x => tw :: x) (ih post)

theorem agentContainerTweet_none_of_parse_fail (u : String) (sd ed : PyDateTime)
    (c : SrcItem) (ds : String) (hds : c.dateTitle = some ds)
    (hparse : parseDateAgentInline ds = none) :
    agentContainerTweet u sd ed c = none := by
  unfold agentContainerTweet
  cases hc : c.content with
  | none => rfl
  | some txt =>
    rw [hds]
    dsimp only
    rw [hparse]

theorem processAgent_skip (u : String) (sd ed : PyDateTime) (c : SrcItem)
    (hc : agentContainerTweet u sd ed c = none) :
    ∀ (pre post : List SrcItem),
      processAgent u sd ed (pre ++ c :: post) = processAgent u sd ed (pre ++ post) := by
  intro pre
  induction pre with
  | nil =>
    intro post
    simp only [List.nil_append, processAgent, hc]
  | cons p pre' ih =>
    intro post
    simp only [List.cons_append, processAgent]
    cases hp : agentContainerTweet u sd ed p with
    | none => exact ih post
    | some tw => exact congrArg (fun x => tw :: x) (ih post)

/-- Counterexample to claim C3 as stated: in tweet_scraper.py, a
container with a long tweet text and the unparseable date string
Jun 1 contributes nothing to the get_user_tweets result, so the
undated post is filtered out rather than included. -/
theorem undated_post_dropped_counterexample :
    parseTweetDateSrc "Jun 1" = none
    ∧ processSrc "OpenAI" (PyDateTime.mk 2025 5 27 0 0 0 true)
        (PyDateTime.mk 2025 5 27 23 59 59 true)
        [SrcItem.mk (some "a sufficiently long tweet text") (some "Jun 1")] = [] :=
  ⟨by decide, by decide⟩

/-- Claim C3 (amended): only scripts/tweet_scraper.py includes undated
posts.  There, a post whose extracted date string fails every pattern
is still included, provided its text passes the ten-character filter
and fewer than eight posts were already collected; in tweet_scraper.py
and in ai_summary_agent.py, a post whose date string fails the
patterns is skipped. -/
theorem undated_post_policy (u : String) (sd ed : PyDateTime) :
    (∀ (pre post : List ScrapedItem) (c : ScrapedItem) (t : String),
      c.textEl = some t →
      (t = "" || (pyStrip t).length < 10) = false →
      containerDate c = none →
      (processScripts u sd ed pre []).length < 8 →
      ("@" ++ u ++ ": " ++ t) ∈ processScripts u sd ed (pre ++ c :: post) [])
    ∧ (∀ (pre post : List SrcItem) (c : SrcItem) (ds : String),
      c.dateTitle = some ds → parseTweetDateSrc ds = none →
      processSrc u sd ed (pre ++ c :: post) = processSrc u sd ed (pre ++ post))
    ∧ (∀ (pre post : List SrcItem) (c : SrcItem) (ds : String),
      c.dateTitle = some ds → parseDateAgentInline ds = none →
      processAgent u sd ed (pre ++ c :: post) = processAgent u sd ed (pre ++ post)) := by
  refine ⟨?_, ?_, ?_⟩
  · intro pre post c t ht hlong hdate hlen
    have hc : containerTweet u sd ed c = some ("@" ++ u ++ ": " ++ t) :=
      containerTweet_undated u sd ed c t ht hlong hdate
    rw [processScripts_append u sd ed pre (c :: post) [] hlen]
    rw [processScripts, hc]
    simp only
    by_cases hcap : 8 ≤ (processScripts u sd ed pre [] ++ ["@" ++ u ++ ": " ++ t]).length
    · rw [if_pos hcap]
      exact List.mem_append.mpr (Or.inr (List.mem_singleton.mpr rfl))
    · rw [if_neg hcap]
      exact processScripts_mem_acc u sd ed post _ _
        (List.mem_append.mpr (Or.inr (List.mem_singleton.mpr rfl)))
  · intro pre post c ds hds hparse
    exact processSrc_skip u sd ed c
      (srcContainerTweet_none_of_parse_fail u sd ed c ds hds hparse) pre post
  · intro pre post c ds hds hparse
    exact processAgent_skip u sd ed c
      (agentContainerTweet_none_of_parse_fail u sd ed c ds hds hparse) pre post

/-- Witness for claim C3: a long post with the unparseable date string
not a date is included by the scripts loop. -/
theorem undated_post_policy_witness :
    (ScrapedItem.mk (some "a sufficiently long tweet")
        (some (DateEl.mk (some "not a date") none ""))).textEl
      = some "a sufficiently long tweet"
    ∧ containerDate (ScrapedItem.mk (some "a sufficiently long tweet")
        (some (DateEl.mk (some "not a date") none ""))) = none
    ∧ ("@" ++ "OpenAI" ++ ": " ++ "a sufficiently long tweet")
        ∈ processScripts "OpenAI" (PyDateTime.mk 2025 5 27 0 0 0 true)
            (PyDateTime.mk 2025 5 27 23 59 59 true)
            ([] ++ ScrapedItem.mk (some "a sufficiently long tweet")
              (some (DateEl.mk (some "not a date") none "")) :: []) [] :=
  ⟨rfl, by decide,
   (undated_post_policy "OpenAI" (PyDateTime.mk 2025 5 27 0 0 0 true)
       (PyDateTime.mk 2025 5 27 23 59 59 true)).1
     [] [] (ScrapedItem.mk (some "a sufficiently long tweet")
       (some (DateEl.mk (some "not a date") none "")))
     "a sufficiently long tweet" rfl (by decide) (by decide) (by decide)⟩

/-! ## Claim C8: the mirror instance selectors -/

theorem lookup_setCooldown_self (i : String) (v : Nat) :
    ∀ cd : List (String × Nat), List.lookup i (setCooldown cd i v) = some v := by
  intro cd
  induction cd with
  | nil => simp [setCooldown, List.lookup]
  | cons p rest ih =>
    obtain ⟨k, w⟩ := p
    by_cases hk : k = i
    · subst hk
      simp [setCooldown, List.lookup]
    · have hne : (i == k) = false := by
        simp [beq_iff_eq]
        exact fun h => hk h.symm
      simp [setCooldown, hk, List.lookup, hne, ih]

theorem lookup_setCooldown_ne (i : String) (v : Nat) (j : String) (hj : j ≠ i) :
    ∀ cd : List (String × Nat), List.lookup j (setCooldown cd i v) = List.lookup j cd := by
  intro cd
  induction cd with
  | nil =>
    have hne : (j == i) = false := by simp [beq_iff_eq, hj]
    simp [setCooldown, List.lookup, hne]
  | cons p rest ih =>
    obtain ⟨k, w⟩ := p
    by_cases hk : k = i
    · subst hk
      have hne : (j == k) = false := by simp [beq_iff_eq, hj]
      simp [setCooldown, List.lookup, hne]
    · by_cases hjk : j = k
      · subst hjk
        simp [setCooldown, hk, List.lookup]
      · have hne : (j == k) = false := by simp [beq_iff_eq, hjk]
        simp [setCooldown, hk, List.lookup, hne, ih]

theorem testNitterScriptsBody_fst (now : Nat) (cd : List (String × Nat))
    (i : String) (p : Probe) :
    (testNitterScriptsBody now cd i p).1
      = (!p.raised && !badUrlScripts p.url && (p.status == 200)
          && (p.hasTimeline || p.hasProfile || p.hasTimelineItem)) := by
  unfold testNitterScriptsBody
  by_cases h1 : p.raised
  · simp [h1]
  · by_cases h2 : badUrlScripts p.url
    · simp [h1, h2]
    · by_cases h3 : p.status = 200
      · simp [h1, h2, h3]
      · by_cases h4 : p.status = 429 <;> simp [h1, h2, h3, h4]

theorem testNitterAgentBody_fst (now : Nat) (cd : List (String × Nat))
    (i : String) (p : Probe) :
    (testNitterAgentBody now cd i p).1
      = (!p.raised && !badUrlAgent p.url && (p.status == 200)) := by
  unfold testNitterAgentBody
  by_cases h1 : p.raised
  · simp [h1]
  · by_cases h2 : badUrlAgent p.url
    · simp [h1, h2]
    · by_cases h3 : p.status = 200
      · simp [h1, h2, h3]
      · by_cases h4 : p.status = 429 <;> simp [h1, h2, h3, h4]

theorem testNitterScripts_fst (now : Nat) (cd : List (String × Nat))
    (probes : String → Probe) (i : String) :
    (testNitterScripts now cd i (probes i)).1 = acceptScripts now cd probes i := by
  unfold testNitterScripts acceptScripts
  cases h : List.lookup i cd with
  | none => simp [testNitterScriptsBody_fst]
  | some dl =>
    by_cases hlt : now < dl
    · simp [hlt, Nat.not_le.mpr hlt]
    · simp [hlt, Nat.not_lt.mp hlt, testNitterScriptsBody_fst]

theorem testNitterAgent_fst (now : Nat) (cd : List (String × Nat))
    (probes : String → Probe) (i : String) :
    (testNitterAgent now cd i (probes i)).1 = acceptAgent now cd probes i := by
  unfold testNitterAgent acceptAgent
  cases h : List.lookup i cd with
  | none => simp [testNitterAgentBody_fst]
  | some dl =>
    by_cases hlt : now < dl
    · simp [hlt, Nat.not_le.mpr hlt]
    · simp [hlt, Nat.not_lt.mp hlt, testNitterAgentBody_fst]

theorem testNitterScripts_snd_ne (now : Nat) (cd : List (String × Nat))
    (i : String) (p : Probe) (j : String) (hj : j ≠ i) :
    List.lookup j (testNitterScripts now cd i p).2 = List.lookup j cd := by
  unfold testNitterScripts testNitterScriptsBody
  cases h : List.lookup i cd with
  | none =>
    simp only
    split
    · rfl
    · split
      · rfl
      · split
        · rfl
        · split
          · exact lookup_setCooldown_ne i (now + 120) j hj cd
          · rfl
  | some dl =>
    by_cases hlt : now < dl
    · simp [hlt]
    · simp only [if_neg hlt]
      split
      · rfl
      · split
        · rfl
        · split
          · rfl
          · split
            · exact lookup_setCooldown_ne i (now + 120) j hj cd
            · rfl

theorem testNitterAgent_snd_ne (now : Nat) (cd : List (String × Nat))
    (i : String) (p : Probe) (j : String) (hj : j ≠ i) :
    List.lookup j (testNitterAgent now cd i p).2 = List.lookup j cd := by
  unfold testNitterAgent testNitterAgentBody
  cases h : List.lookup i cd with
  | none =>
    simp only
    split
    · rfl
    · split
      · rfl
      · split
        · rfl
        · split
          · exact lookup_setCooldown_ne i (now + 90) j hj cd
          · rfl
  | some dl =>
    by_cases hlt : now < dl
    · simp [hlt]
    · simp only [if_neg hlt]
      split
      · rfl
      · split
        · rfl
        · split
          · rfl
          · split
            · exact lookup_setCooldown_ne i (now + 90) j hj cd
            · rfl

theorem acceptScripts_congr (now : Nat) (cd cd2 : List (String × Nat))
    (probes : String → Probe) (j : String)
    (h : List.lookup j cd2 = List.lookup j cd) :
    acceptScripts now cd2 probes j = acceptScripts now cd probes j := by
  unfold acceptScripts
  rw [h]

theorem acceptAgent_congr (now : Nat) (cd cd2 : List (String × Nat))
    (probes : String → Probe) (j : String)
    (h : List.lookup j cd2 = List.lookup j cd) :
    acceptAgent now cd2 probes j = acceptAgent now cd probes j := by
  unfold acceptAgent
  rw [h]

theorem findCongr {α : Type} (p q : α → Bool) :
    ∀ l : List α, (∀ x ∈ l, p x = q x) → l.find? p = l.find? q := by
  intro l
  induction l with
  | nil => intro _; rfl
  | cons a rest ih =>
    intro h
    have ha := h a (List.mem_cons_self _ _)
    cases hq : q a with
    | true =>
      rw [List.find?_cons_of_pos _ (ha.trans hq), List.find?_cons_of_pos _ hq]
    | false =>
      rw [List.find?_cons_of_neg _ (by rw [ha, hq]; exact Bool.false_ne_true),
        List.find?_cons_of_neg _ (by rw [hq]; exact Bool.false_ne_true)]
      exact ih (fun x hx => h x (List.mem_cons_of_mem _ hx))

theorem scanScripts_eq_find (now : Nat) (probes : String → Probe) :
    ∀ (l : List String) (cd : List (String × Nat)), l.Nodup →
      (scanScripts now probes l cd).1 = l.find? (acceptScripts now cd probes) := by
  intro l
  induction l with
  | nil => intro cd _; rfl
  | cons i rest ih =>
    intro cd hnd
    have hfst := testNitterScripts_fst now cd probes i
    rw [scanScripts]
    cases hacc : acceptScripts now cd probes i with
    | true =>
      rw [hacc] at hfst
      simp only [hfst, if_true]
      rw [List.find?_cons_of_pos _ hacc]
    | false =>
      rw [hacc] at hfst
      simp only [hfst, Bool.false_eq_true, if_false]
      rw [List.find?_cons_of_neg _ (by rw [hacc]; exact Bool.false_ne_true)]
      have hnodup := (List.nodup_cons.mp hnd)
      rw [ih _ hnodup.2]
      refine findCongr _ _ rest (fun j hj => ?_)
      refine acceptScripts_congr now cd _ probes j ?_
      exact testNitterScripts_snd_ne now cd i (probes i) j
        (fun hji => hnodup.1 (hji ▸ hj))

theorem scanAgent_eq_find (now : Nat) (probes : String → Probe) :
    ∀ (l : List String) (cd : List (String × Nat)), l.Nodup →
      (scanAgent now probes l cd).1 = l.find? (acceptAgent now cd probes) := by
  intro l
  induction l with
  | nil => intro cd _; rfl
  | cons i rest ih =>
    intro cd hnd
    have hfst := testNitterAgent_fst now cd probes i
    rw [scanAgent]
    cases hacc : acceptAgent now cd probes i with
    | true =>
      rw [hacc] at hfst
      simp only [hfst, if_true]
      rw [List.find?_cons_of_pos _ hacc]
    | false =>
      rw [hacc] at hfst
      simp only [hfst, Bool.false_eq_true, if_false]
      rw [List.find?_cons_of_neg _ (by rw [hacc]; exact Bool.false_ne_true)]
      have hnodup := (List.nodup_cons.mp hnd)
      rw [ih _ hnodup.2]
      refine findCongr _ _ rest (fun j hj => ?_)
      refine acceptAgent_congr now cd _ probes j ?_
      exact testNitterAgent_snd_ne now cd i (probes i) j
        (fun hji => hnodup.1 (hji ▸ hj))

/-- A probe with a plain 200 response and none of the markup
fragments, used to separate the two selectors. -/
def plainOkProbe : Probe :=
  Probe.mk false 200 "https://example.net/OpenAI" false false false

/-- Counterexample to claim C8 as stated: when every candidate answers
200 with a response holding none of the expected markup fragments,
get_working_instance of ai_summary_agent.py still returns the first
candidate, so the selector of that file does not require the markup
fragments the claim demands. -/
theorem instance_selector_counterexample :
    (getWorkingInstanceAgent 0 [] (fun _ => plainOkProbe)).1 = some "https://nitter.net"
    ∧ plainOkProbe.status = 200
    ∧ plainOkProbe.hasTimeline = false
    ∧ plainOkProbe.hasProfile = false
    ∧ plainOkProbe.hasTimelineItem = false := by
  refine ⟨by decide, rfl, rfl, rfl, rfl⟩

/-- Claim C8 (amended): both selectors probe their fixed candidate
lists in order and return the first accepted instance, none when no
candidate qualifies; an instance whose cooldown deadline lies in the
future is skipped with the cooldown dict unchanged; and a candidate
answering 429 with a clean URL is entered into the cooldown dict, for
120 seconds in scripts/tweet_scraper.py and 90 in ai_summary_agent.py.
The scripts selector accepts a 200 response that contains one of the
expected markup fragments; the agent selector accepts any 200 response
not redirected to the health-check page, without a markup check. -/
theorem instance_selector_policy (now : Nat) (cd : List (String × Nat))
    (probes : String → Probe) :
    (findWorkingSourceScripts now cd probes).1
        = nitterInstancesScripts.find? (acceptScripts now cd probes)
    ∧ (getWorkingInstanceAgent now cd probes).1
        = nitterInstancesAgent.find? (acceptAgent now cd probes)
    ∧ (∀ (i : String) (p : Probe) (dl : Nat),
        List.lookup i cd = some dl → now < dl →
        testNitterScripts now cd i p = (false, cd)
          ∧ testNitterAgent now cd i p = (false, cd))
    ∧ (∀ (i : String) (p : Probe),
        (∀ dl, List.lookup i cd = some dl → dl ≤ now) →
        p.raised = false → badUrlScripts p.url = false → p.status = 429 →
        List.lookup i (testNitterScripts now cd i p).2 = some (now + 120))
    ∧ (∀ (i : String) (p : Probe),
        (∀ dl, List.lookup i cd = some dl → dl ≤ now) →
        p.raised = false → badUrlAgent p.url = false → p.status = 429 →
        List.lookup i (testNitterAgent now cd i p).2 = some (now + 90)) := by
  refine ⟨?_, ?_, ?_, ?_, ?_⟩
  · exact scanScripts_eq_find now probes nitterInstancesScripts cd (by decide)
  · exact scanAgent_eq_find now probes nitterInstancesAgent cd (by decide)
  · intro i p dl hdl hlt
    constructor
    · unfold testNitterScripts
      rw [hdl]
      simp [hlt]
    · unfold testNitterAgent
      rw [hdl]
      simp [hlt]
  · intro i p hcool hr hurl h429
    have hbody : (testNitterScriptsBody now cd i p).2 = setCooldown cd i (now + 120) := by
      unfold testNitterScriptsBody
      rw [hr, hurl]
      have h200 : p.status ≠ 200 := by omega
      simp [h200, h429]
    have hsnd : (testNitterScripts now cd i p).2 = setCooldown cd i (now + 120) := by
      unfold testNitterScripts
      cases hdl : List.lookup i cd with
      | none => exact hbody
      | some dl =>
        have hle := hcool dl hdl
        dsimp only
        rw [if_neg (by omega)]
        exact hbody
    rw [hsnd]
    exact lookup_setCooldown_self i (now + 120) cd
  · intro i p hcool hr hurl h429
    have hbody : (testNitterAgentBody now cd i p).2 = setCooldown cd i (now + 90) := by
      unfold testNitterAgentBody
      rw [hr, hurl]
      have h200 : p.status ≠ 200 := by omega
      simp [h200, h429]
    have hsnd : (testNitterAgent now cd i p).2 = setCooldown cd i (now + 90) := by
      unfold testNitterAgent
      cases hdl : List.lookup i cd with
      | none => exact hbody
      | some dl =>
        have hle := hcool dl hdl
        dsimp only
        rw [if_neg (by omega)]
        exact hbody
    rw [hsnd]
    exact lookup_setCooldown_self i (now + 90) cd

/-- Witness for claim C8: a 429 answer from a fresh instance lands in
the scripts cooldown dict with deadline 120. -/
theorem instance_selector_policy_witness :
    (Probe.mk false 429 "ok" false false false).status = 429
    ∧ List.lookup "https://nitter.net"
        (testNitterScripts 0 [] "https://nitter.net"
          (Probe.mk false 429 "ok" false false false)).2 = some 120 :=
  ⟨rfl,
   (instance_selector_policy 0 [] (fun _ => plainOkProbe)).2.2.2.1
     "https://nitter.net" (Probe.mk false 429 "ok" false false false)
     (fun dl h => by cases h) rfl (by decide) rfl⟩


/-! ## Claim C4: pipeline fallback behaviour -/

/-- Counterexample to claim C4 as stated: in ai_summary_agent.py, when
scraping returns nothing main returns without posting any message, and
when no mirror instance works the exception propagates out of main; in
neither case is a placeholder message produced or posted. -/
theorem pipeline_no_message_counterexample :
    mainAgentResult (RunEnv.mk true (some "https://nitter.net")
        (fun _ => []) (fun _ => some "sum")) = Except.ok none
    ∧ mainAgentResult (RunEnv.mk true none (fun _ => []) (fun _ => some "sum"))
      = Except.error "No working Nitter instances found" :=
  ⟨rfl, rfl⟩

/-- Claim C4 (amended): the main of scripts/tweet_scraper.py always
builds some message and hands it to send_to_slack once the required
environment variables are present, substituting the demo summary when
no instance works or scraping finds nothing and the manual summary
when the language model raises; the main of ai_summary_agent.py
substitutes the placeholder only for a language-model failure, posts
nothing when scraping returns no tweets, and propagates the failure
when no instance works. -/
theorem pipeline_fallback_policy (e : RunEnv) :
    (e.envOk = true → (mainScriptsMessage e).isSome = true)
    ∧ (e.envOk = true → e.inst.isSome = true → collectTweets e.scraped ≠ [] →
        (∀ prompt, e.llm prompt = none) →
        mainAgentResult e = Except.ok (some "Failed to generate summary"))
    ∧ (e.envOk = true → e.inst.isSome = true → collectTweets e.scraped = [] →
        mainAgentResult e = Except.ok none)
    ∧ (e.envOk = true → e.inst = none →
        mainAgentResult e = Except.error "No working Nitter instances found") := by
  refine ⟨?_, ?_, ?_, ?_⟩
  · intro h
    unfold mainScriptsMessage
    simp only [h]
    norm_num
    split <;> simp
  · intro h hinst hne hllm
    unfold mainAgentResult
    simp only [h]
    cases hi : e.inst with
    | none => rw [hi] at hinst; cases hinst
    | some v =>
      norm_num
      rw [if_neg hne]
      unfold generateSummaryAgent
      rw [if_neg hne, hllm]
  · intro h hinst hemp
    unfold mainAgentResult
    simp only [h]
    cases hi : e.inst with
    | none => rw [hi] at hinst; cases hinst
    | some v =>
      norm_num
      exact fun hc => absurd hemp hc
  · intro h hinst
    unfold mainAgentResult
    simp only [h, hinst]
    norm_num

/-- Witness for claim C4: with no working instance the scripts main
still produces a message, and with an always-raising language model
the agent main posts the placeholder. -/
theorem pipeline_fallback_policy_witness :
    (mainScriptsMessage (RunEnv.mk true none (fun _ => []) (fun _ => none))).isSome = true
    ∧ mainAgentResult (RunEnv.mk true (some "https://nitter.net")
        (fun _ => ["@OpenAI: hello"]) (fun _ => none))
      = Except.ok (some "Failed to generate summary") :=
  ⟨(pipeline_fallback_policy (RunEnv.mk true none (fun _ => []) (fun _ => none))).1 rfl,
   (pipeline_fallback_policy (RunEnv.mk true (some "https://nitter.net")
       (fun _ => ["@OpenAI: hello"]) (fun _ => none))).2.1 rfl rfl
     (by decide) (fun _ => rfl)⟩


end Baip
